import Mathlib

/-!
# sot-dynamic: balance stabilizer and ankle-flexibility model

Shallow embedding of `src/stabilizer.cpp`.

* A C++ `double` is an element of a field `α` (the real numbers in the
  theorems about derivatives), so arithmetic is exact; `cos`, `sin` and `sqrt`
  of `<cmath>` are passed to the functions that call them.
* A `dynamicgraph::Vector` is a list of scalars and `v (i)` is the checked
  read `v[i]?`.
* An input signal read at a time index (`sig (inTime)`, `sig.access (inTime)`)
  is a function of the time index; `accessCopy ()` takes the stored value.
* A member function of an entity is a function on the record of the entity's
  members (`Eval`).
-/

namespace sot.dynamic

/-- Modelled from the spec: `dynamicgraph::Vector` is declared in
`dynamic-graph/linear-algebra.h`, which is not part of the sources. A vector is
the list of its entries, and reading an entry outside it is a shape error
(the read `v[i]?` is `none`). -/
abbrev Vector (α : Type) : Type := List α

/-- Modelled from the spec: `MatrixHomogeneous` is declared in
`sot/core/matrix-homogeneous.hh`, which is not part of the sources. A
homogeneous transform is a 4x4 array of scalars. -/
abbrev MatrixHomogeneous (α : Type) : Type := Fin 4 → Fin 4 → α

/-- Modelled from the spec: `MultiBound` is declared in
`sot/core/multi-bound.hh`, which is not part of the sources. A bound is either a
single value (an equality target, what `setSingleBound` stores) or a pair of
optional limits. -/
inductive MultiBound (α : Type) : Type where
  | single (value : α)
  | double (inf sup : Option α)
  deriving DecidableEq, Repr

/-- A `VectorMultiBound` is a `std::vector` of bounds. -/
abbrev VectorMultiBound (α : Type) : Type := List (MultiBound α)

/-- Evaluation of a member function over the members `σ` of an entity: it ends
with a value or stops at a shape error (`none`). The members written before a
stop stay written. -/
def Eval (σ β : Type) : Type := σ → Option β × σ

namespace Eval

variable {σ β γ : Type}

/-- End with the value `b`, members untouched. -/
def ret (b : β) : Eval σ β := fun s => (some b, s)

/-- Run `m`, then `k` on its value; a stop in `m` skips `k`. -/
def andThen (m : Eval σ β) (k : β → Eval σ γ) : Eval σ γ := fun s =>
  match m s with
  | (some b, s1) => k b s1
  | (none, s1) => (none, s1)

/-- The current members. -/
def members : Eval σ σ := fun s => (some s, s)

/-- Assignment to members. -/
def assign (w : σ → σ) : Eval σ Unit := fun s => (some (), w s)

/-- A checked read: `none` stops the evaluation. -/
def check (o : Option β) : Eval σ β := fun s => (o, s)

instance : Monad (Eval σ) where
  pure := ret
  bind := andThen

end Eval

/-- The input signals plugged into a `Stabilizer`; each gives a value at every
time index. `M` is the type of the centre-of-mass Jacobian. -/
structure Signals (α M : Type) where
  deltaComSIN_ : Int → Vector α
  jacobianSIN_ : Int → M
  comdotSIN_ : Int → Vector α
  leftFootPositionSIN_ : Int → MatrixHomogeneous α
  rightFootPositionSIN_ : Int → MatrixHomogeneous α
  stateFlexXSIN_ : Int → Vector α
  stateFlexYSIN_ : Int → Vector α

/-- The data members of `class Stabilizer`. The gains are vectors that the
commands `setGain1` and `setGain2` replace. `flexAngle_`, `flexDeriv_` (size 2),
`ddx_`, `ddy_` (size 1, the field is entry 0) and `debug_` (size 11) are private
and keep the size the constructor gives them. `ddxSOUT_`, `ddySOUT_` and
`debugSOUT_` are the values held by the output signals, `debugSOUT_time` the
time of `debugSOUT_`. -/
structure Stabilizer (α : Type) where
  gain1_ : Vector α
  gain2_ : Vector α
  prevCom_ : Vector α
  flexAngle_ : Fin 2 → α
  prevFlexAngle_ : Vector α
  flexDeriv_ : Fin 2 → α
  dx_ : α
  dy_ : α
  dz_ : α
  timePeriod_ : α
  on_ : Bool
  forceThreshold_ : α
  angularStiffness_ : α
  nbSupport_ : Nat
  ddx_ : α
  ddy_ : α
  debug_ : Fin 11 → α
  ddxSOUT_ : Vector α
  ddySOUT_ : Vector α
  debugSOUT_ : Vector α
  debugSOUT_time : Int

namespace Stabilizer

variable {α : Type} [Field α]

/-- Robot mass, `double Stabilizer::m_ = 56.`. -/
def m_ : α := 56

/-- Gravity, `double Stabilizer::g_ = 9.81`. -/
def g_ : α := 9.81

/-- Height parameter, `double Stabilizer::zeta_ = .80`. -/
def zeta_ : α := 0.80

/-- The constructor `Stabilizer (inName)`. `nbSupport_` and the entries of
`debug_` are not initialised by the constructor: `nbSupport0` and `debug0` stand
for what they hold. -/
def new (nbSupport0 : Nat) (debug0 : Fin 11 → α) : Stabilizer α where
  gain1_ := [177.57303317647063, -29.735033684033631, 54.413552941176476,
             -27.530842352941178]
  gain2_ := [82.655266588235293, 36.712572443697468, 27.206776470588238,
             -5.76542117647059]
  prevCom_ := [0, 0, 0]
  flexAngle_ := fun _ => 0
  prevFlexAngle_ := [0, 0]
  flexDeriv_ := fun _ => 0
  dx_ := 0
  dy_ := 0
  dz_ := 0
  timePeriod_ := 0.005
  on_ := false
  forceThreshold_ := 20
  angularStiffness_ := 425
  nbSupport_ := nbSupport0
  ddx_ := 0
  ddy_ := 0
  debug_ := debug0
  ddxSOUT_ := [0]
  ddySOUT_ := [0]
  debugSOUT_ := []
  debugSOUT_time := 0

/-- `Stabilizer::start`. -/
def start : Eval (Stabilizer α) Unit :=
  Eval.assign fun s => { s with on_ := true }

/-- `Stabilizer::setTimePeriod`. -/
def setTimePeriod (inTimePeriod : α) : Eval (Stabilizer α) Unit :=
  Eval.assign fun s => { s with timePeriod_ := inTimePeriod }

/-- `Stabilizer::getTimePeriod`. -/
def getTimePeriod : Eval (Stabilizer α) α := do
  let s ← Eval.members
  pure s.timePeriod_

/-- The command `setGain1`, a direct setter of `gain1_`. -/
def setGain1 (v : Vector α) : Eval (Stabilizer α) Unit :=
  Eval.assign fun s => { s with gain1_ := v }

/-- The command `setGain2`, a direct setter of `gain2_`. -/
def setGain2 (v : Vector α) : Eval (Stabilizer α) Unit :=
  Eval.assign fun s => { s with gain2_ := v }

/-- The assignment `debug_ (i) = v`. -/
def setDebug (i : Fin 11) (v : α) : Eval (Stabilizer α) Unit :=
  Eval.assign fun s => { s with debug_ := Function.update s.debug_ i v }

/-- The statement `switch (nbSupport_)` of `computeControlFeedback`, with its
three cases and the empty default. -/
def controlSwitch (sqrt : α → α) (x y : α)
    (leftFootPosition rightFootPosition : MatrixHomogeneous α)
    (flexX flexY : Vector α) : Eval (Stabilizer α) Unit := do
  let s ← Eval.members
  match s.nbSupport_ with
  | 0 =>
    Eval.assign fun s => { s with dx_ := -x }
    Eval.assign fun s => { s with dy_ := -y }
  | 1 =>
    -- along x
    let theta0 ← Eval.check flexX[1]?
    let dtheta0 ← Eval.check flexX[3]?
    let s ← Eval.members
    let ddx0 ← Eval.check (do
      let k0 ← s.gain1_[0]?
      let k1 ← s.gain1_[1]?
      let k2 ← s.gain1_[2]?
      let k3 ← s.gain1_[3]?
      pure (-(k0 * x + k1 * theta0 + k2 * s.dx_ + k3 * dtheta0)))
    Eval.assign fun s => { s with ddx_ := ddx0 }
    setDebug 0 x
    setDebug 1 theta0
    setDebug 2 s.dx_
    setDebug 3 dtheta0
    setDebug 4 ddx0
    Eval.assign fun s => { s with dx_ := s.dx_ + s.timePeriod_ * s.ddx_ }
    -- along y
    let theta1 ← Eval.check flexY[1]?
    let dtheta1 ← Eval.check flexY[3]?
    let s ← Eval.members
    let ddy0 ← Eval.check (do
      let k0 ← s.gain1_[0]?
      let k1 ← s.gain1_[1]?
      let k2 ← s.gain1_[2]?
      let k3 ← s.gain1_[3]?
      pure (-(k0 * y + k1 * theta1 + k2 * s.dy_ + k3 * dtheta1)))
    Eval.assign fun s => { s with ddy_ := ddy0 }
    setDebug 5 y
    setDebug 6 theta1
    setDebug 7 s.dy_
    setDebug 8 dtheta1
    setDebug 9 ddy0
    Eval.assign fun s => { s with dy_ := s.dy_ + s.timePeriod_ * s.ddy_ }
  | 2 =>
    -- component of angle orthogonal to the line joining the feet
    let delta_x := leftFootPosition 0 3 - rightFootPosition 0 3
    let delta_y := leftFootPosition 1 3 - rightFootPosition 1 3
    let norm := sqrt (delta_x * delta_x + delta_y * delta_y)
    let u2x := delta_x / norm
    let u2y := delta_y / norm
    let u1x := u2y
    let u1y := -u2x
    let s ← Eval.members
    let theta := -(u2x * s.flexAngle_ 0 + u2y * s.flexAngle_ 1)
    let dtheta := -(u2x * s.flexDeriv_ 0 + u2y * s.flexDeriv_ 1)
    let xi := u1x * x + u1y * y
    let dxi := u1x * s.dx_ + u1y * s.dy_
    let ddxi ← Eval.check (do
      let k0 ← s.gain2_[0]?
      let k1 ← s.gain2_[1]?
      let k2 ← s.gain2_[2]?
      let k3 ← s.gain2_[3]?
      pure (-(k0 * xi + k1 * theta + k2 * dxi + k3 * dtheta)))
    let lat := u2x * x + u2y * y
    let dlat := u2x * s.dx_ + u2y * s.dy_
    let ddlat := -2 * dlat - lat
    Eval.assign fun s => { s with ddx_ := ddxi * u1x }
    Eval.assign fun s => { s with ddy_ := ddxi * u1y }
    Eval.assign fun s => { s with dx_ := s.dx_ + s.timePeriod_ * (s.ddx_ + ddlat * u2x) }
    Eval.assign fun s => { s with dy_ := s.dy_ + s.timePeriod_ * (s.ddy_ + ddlat * u2y) }
  | _ => pure ()

/-- `Stabilizer::computeControlFeedback`: the function of `taskSOUT`. The
result is the value written to `comdot`. -/
def computeControlFeedback {M : Type} (sqrt : α → α) (sig : Signals α M) (inTime : Int) :
    Eval (Stabilizer α) (VectorMultiBound α) := do
  let deltaCom := sig.deltaComSIN_ inTime
  let comdotRef := sig.comdotSIN_ inTime
  let leftFootPosition := sig.leftFootPositionSIN_ inTime
  let rightFootPosition := sig.rightFootPositionSIN_ inTime
  let flexX := sig.stateFlexXSIN_ inTime
  let flexY := sig.stateFlexYSIN_ inTime
  Eval.assign fun s => { s with nbSupport_ := if s.on_ then 1 else 0 }
  let x ← Eval.check deltaCom[0]?
  let y ← Eval.check deltaCom[1]?
  let z ← Eval.check deltaCom[2]?
  Eval.assign fun s => { s with debug_ := fun _ => 0 }
  Eval.assign fun s => { s with debug_ := Function.update s.debug_ 10 (s.nbSupport_ : α) }
  controlSwitch sqrt x y leftFootPosition rightFootPosition flexX flexY
  Eval.assign fun s => { s with dz_ := -z }
  let c0 ← Eval.check comdotRef[0]?
  let s ← Eval.members
  let b0 := MultiBound.single (c0 + s.dx_)
  let c1 ← Eval.check comdotRef[1]?
  let b1 := MultiBound.single (c1 + s.dy_)
  let c2 ← Eval.check comdotRef[2]?
  let b2 := MultiBound.single (c2 + s.dz_)
  Eval.assign fun s => { s with ddxSOUT_ := [s.ddx_] }
  Eval.assign fun s => { s with ddySOUT_ := [s.ddy_] }
  Eval.assign fun s => { s with debugSOUT_ := List.ofFn s.debug_ }
  Eval.assign fun s => { s with debugSOUT_time := inTime }
  pure [b0, b1, b2]

/-- `Stabilizer::computeJacobianCom`: the function of `jacobianSOUT`. -/
def computeJacobianCom {M : Type} (sig : Signals α M) (inTime : Int) :
    Eval (Stabilizer α) M :=
  pure (sig.jacobianSIN_ inTime)

end Stabilizer

namespace flexibility

variable {α : Type} [Field α]

namespace f

/-- `flexibility::f::computeNewState`: `state` and `control` are the stored
values of `stateSIN_` and `controlSIN_`, `dt_` the member of `Function`. -/
def computeNewState (cos sin : α → α) (dt_ : α) (state control : Vector α) :
    Option (Vector α) := do
  let m : α := Stabilizer.m_
  let g : α := Stabilizer.g_
  let zeta : α := Stabilizer.zeta_
  let xi ← state[0]?
  let th ← state[1]?
  let dxi ← state[2]?
  let dth ← state[3]?
  let kth ← state[4]?
  let u ← control[0]?
  let d2 := xi * xi + zeta * zeta
  pure [xi + dt_ * dxi,
        th + dt_ * dth,
        dxi + dt_ * u,
        dth + dt_ * (-kth * th - m * g * (cos th * xi - sin th * zeta) +
                     m * (zeta * u - 2 * th * xi * dxi)) / (m * d2),
        kth]

/-- `flexibility::f::computeJacobian`: a 5x5 matrix filled with zeros, then the
eleven assigned entries. -/
def computeJacobian (cos sin : α → α) (dt_ : α) (state : Vector α) :
    Option (Matrix (Fin 5) (Fin 5) α) := do
  let m : α := Stabilizer.m_
  let g : α := Stabilizer.g_
  let zeta : α := Stabilizer.zeta_
  let xi ← state[0]?
  let th ← state[1]?
  let dxi ← state[2]?
  let dth ← state[3]?
  let kth ← state[4]?
  let d2 := xi * xi + zeta * zeta
  pure !![1, 0, dt_, 0, 0;
          0, 1, 0, dt_, 0;
          0, 0, 1, 0, 0;
          dt_ * (-g * cos th - 2 * dth * dxi) / d2,
            dt_ * (-kth + m * g * (sin th * xi + cos th * zeta)) / (m * d2),
            -2 * dt_ * dth * xi / d2,
            1 - 2 * dt_ * xi * dxi / d2,
            -dt_ * th / (m * d2);
          0, 0, 0, 0, 1]

end f

namespace h

/-- `flexibility::h::computeObservation`: the state is read from `stateSIN_` at
the time index. -/
def computeObservation (stateSIN_ : Int → Vector α) (time : Int) : Option (Vector α) := do
  let state := stateSIN_ time
  let xi ← state[0]?
  let th ← state[1]?
  let kth ← state[4]?
  pure [xi, kth * th]

/-- `flexibility::h::computeJacobian`: a 2x5 matrix filled with zeros, then the
three assigned entries. -/
def computeJacobian (stateSIN_ : Int → Vector α) (time : Int) :
    Option (Matrix (Fin 2) (Fin 5) α) := do
  let state := stateSIN_ time
  let th ← state[1]?
  let kth ← state[4]?
  pure !![1, 0, 0, 0, 0;
          0, kth, 0, 0, th]

end h

end flexibility

/-! ## Notions used to state the properties -/

/-- Entry `i` of the vector a model function returns at `x`; `0` when the
function stops or the vector has no entry `i`. -/
def component {α : Type} [Zero α] (fn : Vector α → Option (Vector α)) (i : Nat)
    (x : Vector α) : α :=
  ((fn x).bind fun out => out[i]?).getD 0

/-- Entry `i` of the vector a model function returns, as a function of entry `j`
of its argument, the other entries being those of `x`. -/
def alongEntry {α : Type} [Zero α] (fn : Vector α → Option (Vector α)) (x : Vector α)
    (i j : Nat) : α → α :=
  fun v => component fn i (x.set j v)

namespace flexibility.f

variable {α : Type} [Field α]

/-- Repeated prediction: `computeNewState` applied once per control of
`controls`, each new state being the next state input. -/
def iterateNewState (cos sin : α → α) (dt_ : α) : Vector α → List (Vector α) → Option (Vector α)
  | state, [] => some state
  | state, control :: controls =>
    (computeNewState cos sin dt_ state control).bind fun x =>
      iterateNewState cos sin dt_ x controls

end flexibility.f

namespace Eval

/-- The property `P` of the members is kept by the evaluation `m`, whether it
ends with a value or stops. -/
def Inv {σ β : Type} (P : σ → Prop) (m : Eval σ β) : Prop :=
  ∀ s, P s → P (m s).2

end Eval

namespace Stabilizer

variable {α : Type} [Field α]

/-- The operations on a controller: the commands `start`, `setTimePeriod`,
`setGain1`, `setGain2` and the functions of the two output signals. -/
inductive Op (α M : Type) : Type where
  | start
  | setTimePeriod (inTimePeriod : α)
  | setGain1 (v : Vector α)
  | setGain2 (v : Vector α)
  | computeControlFeedback (sig : Signals α M) (inTime : Int)
  | computeJacobianCom (sig : Signals α M) (inTime : Int)

/-- The members after one operation. -/
def Op.run {M : Type} (sqrt : α → α) : Op α M → Stabilizer α → Stabilizer α
  | .start, s => (Stabilizer.start s).2
  | .setTimePeriod v, s => (Stabilizer.setTimePeriod v s).2
  | .setGain1 v, s => (Stabilizer.setGain1 v s).2
  | .setGain2 v, s => (Stabilizer.setGain2 v s).2
  | .computeControlFeedback sig inTime, s =>
    (Stabilizer.computeControlFeedback sqrt sig inTime s).2
  | .computeJacobianCom sig inTime, s => (Stabilizer.computeJacobianCom sig inTime s).2

/-- The members after a sequence of operations. -/
def runOps {M : Type} (sqrt : α → α) (ops : List (Op α M)) (s : Stabilizer α) : Stabilizer α :=
  ops.foldl (fun s1 op => op.run sqrt s1) s

/-- The states a controller can be in: those a sequence of operations gives from
a newly constructed controller. -/
def Reachable (M : Type) (sqrt : α → α) (s : Stabilizer α) : Prop :=
  ∃ (nbSupport0 : Nat) (debug0 : Fin 11 → α) (ops : List (Op α M)),
    s = runOps sqrt ops (new nbSupport0 debug0)

/-- Modelled from the spec: the output signal `taskSOUT` is a time-dependent
signal of the host signal engine, which is not part of the sources. It holds
the controller and the value cached for a time index. -/
structure TaskSignal (α : Type) where
  entity : Stabilizer α
  cache : Option (Int × VectorMultiBound α)

/-- Modelled from the spec: recomputation of `taskSOUT` by its function
`computeControlFeedback`; a value is cached for the time index, a stop leaves
the cache as it was. -/
def taskSOUT_recompute {M : Type} (sqrt : α → α) (sig : Signals α M) (inTime : Int) :
    Eval (TaskSignal α) (VectorMultiBound α) := fun c =>
  match computeControlFeedback sqrt sig inTime c.entity with
  | (some v, s) => (some v, { entity := s, cache := some (inTime, v) })
  | (none, s) => (none, { entity := s, cache := c.cache })

/-- Modelled from the spec: access to `taskSOUT` at a time index. The output is
computed lazily, cached per time index and recomputed only when the time index
advances. -/
def taskSOUT {M : Type} (sqrt : α → α) (sig : Signals α M) (inTime : Int) :
    Eval (TaskSignal α) (VectorMultiBound α) := fun c =>
  match c.cache with
  | some (t, v) => if inTime ≤ t then (some v, c) else taskSOUT_recompute sqrt sig inTime c
  | none => taskSOUT_recompute sqrt sig inTime c

end Stabilizer

/-! ## Concrete inputs -/

namespace Stabilizer

variable {α : Type} [Field α]

/-- Foot pose with the identity rotation and no translation. -/
def footAtOrigin : MatrixHomogeneous α := fun i j => if i = j then 1 else 0

/-- Foot pose with the identity rotation and the horizontal translation
`(px, py)`. -/
def footAt (px py : α) : MatrixHomogeneous α := fun i j =>
  if i = j then 1 else if j = 3 then (if i = 0 then px else if i = 1 then py else 0) else 0

/-- Input signals that are constant in time: COM error `deltaCom`, zero reference
velocity, flexibility states `flexX` and `flexY`, both feet at the origin. -/
def constantSignals (deltaCom flexX flexY : Vector α) : Signals α Unit where
  deltaComSIN_ := fun _ => deltaCom
  jacobianSIN_ := fun _ => ()
  comdotSIN_ := fun _ => [0, 0, 0]
  leftFootPositionSIN_ := fun _ => footAtOrigin
  rightFootPositionSIN_ := fun _ => footAtOrigin
  stateFlexXSIN_ := fun _ => flexX
  stateFlexYSIN_ := fun _ => flexY

/-- A started controller with single-support gains `gain1` and integrator state
`(dx, dy)`; every other member is as the constructor leaves it. -/
def startedWith (gain1 : Vector α) (dx dy : α) : Stabilizer α :=
  { (new 0 (fun _ => 0) : Stabilizer α) with on_ := true, gain1_ := gain1, dx_ := dx, dy_ := dy }

end Stabilizer

/-! ## Evaluation lemmas -/

namespace Eval

variable {σ β γ : Type}

@[simp] theorem pure_run (b : β) (s : σ) : (pure b : Eval σ β) s = (some b, s) := rfl

@[simp] theorem bind_run (m : Eval σ β) (k : β → Eval σ γ) (s : σ) :
    (m >>= k) s = match m s with
      | (some b, s1) => k b s1
      | (none, s1) => (none, s1) := rfl

@[simp] theorem members_run (s : σ) : (members : Eval σ σ) s = (some s, s) := rfl

@[simp] theorem assign_run (w : σ → σ) (s : σ) : assign w s = (some (), w s) := rfl

@[simp] theorem check_run (o : Option β) (s : σ) : (check o : Eval σ β) s = (o, s) := rfl

end Eval

namespace Stabilizer

variable {α : Type} [Field α]

/-- The single-support case of the switch, run to its end. -/
theorem controlSwitch_single (sqrt : α → α) (s : Stabilizer α) (L R : MatrixHomogeneous α)
    (kp kpth kd kdth x y a0 a1 a2 a3 b0 b1 b2 b3 : α)
    (hn : s.nbSupport_ = 1) (hg : s.gain1_ = [kp, kpth, kd, kdth]) :
    controlSwitch sqrt x y L R [a0, a1, a2, a3] [b0, b1, b2, b3] s =
      (some (),
        { s with
          ddx_ := -(kp * x + kpth * a1 + kd * s.dx_ + kdth * a3)
          dx_ := s.dx_ + s.timePeriod_ * -(kp * x + kpth * a1 + kd * s.dx_ + kdth * a3)
          ddy_ := -(kp * y + kpth * b1 + kd * s.dy_ + kdth * b3)
          dy_ := s.dy_ + s.timePeriod_ * -(kp * y + kpth * b1 + kd * s.dy_ + kdth * b3)
          debug_ :=
            Function.update (Function.update (Function.update (Function.update (Function.update
            (Function.update (Function.update (Function.update (Function.update (Function.update
              s.debug_ 0 x) 1 a1) 2 s.dx_) 3 a3) 4
                (-(kp * x + kpth * a1 + kd * s.dx_ + kdth * a3))) 5 y) 6 b1) 7 s.dy_) 8 b3) 9
                (-(kp * y + kpth * b1 + kd * s.dy_ + kdth * b3)) }) := by
  unfold controlSwitch
  simp only [Eval.bind_run, Eval.members_run, Eval.assign_run, Eval.check_run, Eval.pure_run,
    setDebug, hn, hg, List.getElem?_cons_succ, List.getElem?_cons_zero, Option.bind_eq_bind,
    Option.some_bind, Option.pure_def]

/-- The no-support case of the switch. -/
theorem controlSwitch_none (sqrt : α → α) (s : Stabilizer α) (L R : MatrixHomogeneous α)
    (x y : α) (flexX flexY : Vector α) (hn : s.nbSupport_ = 0) :
    controlSwitch sqrt x y L R flexX flexY s = (some (), { s with dx_ := -x, dy_ := -y }) := by
  unfold controlSwitch
  simp only [Eval.bind_run, Eval.members_run, Eval.assign_run, hn]

/-- The debug vector after the ten assignments of the single-support case. -/
theorem debug_single (v0 v1 v2 v3 v4 v5 v6 v7 v8 v9 n : α) :
    (Function.update (Function.update (Function.update (Function.update (Function.update
      (Function.update (Function.update (Function.update (Function.update (Function.update
      (Function.update (fun _ => 0) 10 n)
        0 v0) 1 v1) 2 v2) 3 v3) 4 v4) 5 v5) 6 v6) 7 v7) 8 v8) 9 v9 : Fin 11 → α)
      = ![v0, v1, v2, v3, v4, v5, v6, v7, v8, v9, n] := by
  funext i
  fin_cases i <;> rfl

/-- One call in single support, run to its end: the command and all members. -/
theorem computeControlFeedback_single_run {M : Type} (sqrt : α → α) (sig : Signals α M)
    (inTime : Int) (s : Stabilizer α)
    (kp kpth kd kdth x y z c0 c1 c2 a0 a1 a2 a3 b0 b1 b2 b3 ddx ddy : α)
    (hon : s.on_ = true) (hg : s.gain1_ = [kp, kpth, kd, kdth])
    (hd : sig.deltaComSIN_ inTime = [x, y, z]) (hc : sig.comdotSIN_ inTime = [c0, c1, c2])
    (hx : sig.stateFlexXSIN_ inTime = [a0, a1, a2, a3])
    (hy : sig.stateFlexYSIN_ inTime = [b0, b1, b2, b3])
    (hddx : ddx = -(kp * x + kpth * a1 + kd * s.dx_ + kdth * a3))
    (hddy : ddy = -(kp * y + kpth * b1 + kd * s.dy_ + kdth * b3)) :
    computeControlFeedback sqrt sig inTime s =
      (some [MultiBound.single (c0 + (s.dx_ + s.timePeriod_ * ddx)),
             MultiBound.single (c1 + (s.dy_ + s.timePeriod_ * ddy)),
             MultiBound.single (c2 + -z)],
        { s with
          nbSupport_ := 1
          ddx_ := ddx
          dx_ := s.dx_ + s.timePeriod_ * ddx
          ddy_ := ddy
          dy_ := s.dy_ + s.timePeriod_ * ddy
          dz_ := -z
          debug_ := ![x, a1, s.dx_, a3, ddx, y, b1, s.dy_, b3, ddy, 1]
          ddxSOUT_ := [ddx]
          ddySOUT_ := [ddy]
          debugSOUT_ := [x, a1, s.dx_, a3, ddx, y, b1, s.dy_, b3, ddy, 1]
          debugSOUT_time := inTime }) := by
  subst hddx hddy
  unfold computeControlFeedback
  simp only [Eval.bind_run, Eval.members_run, Eval.assign_run, Eval.check_run, Eval.pure_run,
    hon, hd, hc, hx, hy, List.getElem?_cons_succ, List.getElem?_cons_zero, if_true]
  rw [controlSwitch_single sqrt _ _ _ kp kpth kd kdth x y a0 a1 a2 a3 b0 b1 b2 b3 rfl
    (by simpa using hg)]
  simp only [debug_single, Nat.cast_one]
  simp [List.ofFn_succ, hon, hg]

/-- C2: single support (latch on), sizes as in the contract: one call sets
`ddx = -(k_p*x + k_ptheta*flexX[1] + k_d*dx + k_dtheta*flexX[3])` and
`dx' = dx + dt*ddx`, the same along y with `flexY`, and returns the single-bound
vector `(comdotRef[0] + dx', comdotRef[1] + dy', comdotRef[2] - z)`. -/
theorem computeControlFeedback_single {M : Type} (sqrt : α → α) (sig : Signals α M)
    (inTime : Int) (s : Stabilizer α)
    (kp kpth kd kdth x y z c0 c1 c2 a0 a1 a2 a3 b0 b1 b2 b3 : α)
    (hon : s.on_ = true) (hg : s.gain1_ = [kp, kpth, kd, kdth])
    (hd : sig.deltaComSIN_ inTime = [x, y, z]) (hc : sig.comdotSIN_ inTime = [c0, c1, c2])
    (hx : sig.stateFlexXSIN_ inTime = [a0, a1, a2, a3])
    (hy : sig.stateFlexYSIN_ inTime = [b0, b1, b2, b3]) :
    (computeControlFeedback sqrt sig inTime s).2.ddx_
        = -(kp * x + kpth * a1 + kd * s.dx_ + kdth * a3) ∧
    (computeControlFeedback sqrt sig inTime s).2.dx_
        = s.dx_ + s.timePeriod_ * (computeControlFeedback sqrt sig inTime s).2.ddx_ ∧
    (computeControlFeedback sqrt sig inTime s).2.ddy_
        = -(kp * y + kpth * b1 + kd * s.dy_ + kdth * b3) ∧
    (computeControlFeedback sqrt sig inTime s).2.dy_
        = s.dy_ + s.timePeriod_ * (computeControlFeedback sqrt sig inTime s).2.ddy_ ∧
    (computeControlFeedback sqrt sig inTime s).1
        = some [MultiBound.single (c0 + (computeControlFeedback sqrt sig inTime s).2.dx_),
                MultiBound.single (c1 + (computeControlFeedback sqrt sig inTime s).2.dy_),
                MultiBound.single (c2 - z)] := by
  rw [computeControlFeedback_single_run sqrt sig inTime s kp kpth kd kdth x y z c0 c1 c2
    a0 a1 a2 a3 b0 b1 b2 b3 _ _ hon hg hd hc hx hy rfl rfl]
  simp only [sub_eq_add_neg, and_self]

/-- C2, the concrete scenario: `gain1 = (177.573, -29.735, 54.414, -27.531)`,
`x = 0.01`, zero flexibility state, `dx = 0` and `dt = 0.005` give
`ddx = -1.77573` and `dx' = 0.005 * (-1.77573)`. -/
theorem computeControlFeedback_single_witness :
    (startedWith [177.573, -29.735, 54.414, -27.531] 0 0 : Stabilizer ℝ).on_ = true ∧
    (computeControlFeedback Real.sqrt (constantSignals [0.01, 0, 0] [0, 0, 0, 0] [0, 0, 0, 0]) 0
      (startedWith [177.573, -29.735, 54.414, -27.531] 0 0)).2.ddx_ = -1.77573 ∧
    (computeControlFeedback Real.sqrt (constantSignals [0.01, 0, 0] [0, 0, 0, 0] [0, 0, 0, 0]) 0
      (startedWith [177.573, -29.735, 54.414, -27.531] 0 0)).2.dx_ = 0.005 * (-1.77573) := by
  have h := computeControlFeedback_single Real.sqrt
    (constantSignals [0.01, 0, 0] [0, 0, 0, 0] [0, 0, 0, 0]) 0
    (startedWith [177.573, -29.735, 54.414, -27.531] 0 0)
    177.573 (-29.735) 54.414 (-27.531) 0.01 0 0 0 0 0 0 0 0 0 0 0 0 0 rfl rfl rfl rfl rfl rfl
  refine ⟨rfl, ?_, ?_⟩
  · rw [h.1]; simp [startedWith, new]; norm_num
  · rw [h.2.1, h.1]; simp [startedWith, new]; norm_num

/-- One call with the latch off, run to its end: the command and all members. -/
theorem computeControlFeedback_off_run {M : Type} (sqrt : α → α) (sig : Signals α M)
    (inTime : Int) (s : Stabilizer α) (x y z c0 c1 c2 : α)
    (hoff : s.on_ = false)
    (hd : sig.deltaComSIN_ inTime = [x, y, z]) (hc : sig.comdotSIN_ inTime = [c0, c1, c2]) :
    computeControlFeedback sqrt sig inTime s =
      (some [MultiBound.single (c0 + -x), MultiBound.single (c1 + -y),
             MultiBound.single (c2 + -z)],
        { s with
          nbSupport_ := 0
          dx_ := -x
          dy_ := -y
          dz_ := -z
          debug_ := fun _ => 0
          ddxSOUT_ := [s.ddx_]
          ddySOUT_ := [s.ddy_]
          debugSOUT_ := List.replicate 11 0
          debugSOUT_time := inTime }) := by
  have hdebug : (Function.update (fun _ => 0) 10 ((0 : ℕ) : α) : Fin 11 → α) = fun _ => 0 := by
    funext i
    simp [Function.update]
  unfold computeControlFeedback
  simp only [Eval.bind_run, Eval.members_run, Eval.assign_run, Eval.check_run, Eval.pure_run,
    hoff, hd, hc, List.getElem?_cons_succ, List.getElem?_cons_zero]
  rw [controlSwitch_none sqrt _ _ _ x y _ _ (by simp)]
  simp [hdebug, hoff, List.ofFn_succ, List.replicate]

/-- C3: with the latch off (phase NoSupport) the command is
`comdotRef + (-x, -y, -z)` and the integrator is left at `(-x, -y, -z)`; a second
run with any other gains, period, prior integrator state, flexibility inputs and
foot poses, on the same `deltaCom` and `comdotRef`, gives the same command and
integrator. -/
theorem computeControlFeedback_no_support {M : Type} (sqrt sqrt' : α → α)
    (sig sig' : Signals α M) (inTime inTime' : Int) (s s' : Stabilizer α)
    (x y z c0 c1 c2 : α)
    (hoff : s.on_ = false) (hoff' : s'.on_ = false)
    (hd : sig.deltaComSIN_ inTime = [x, y, z]) (hc : sig.comdotSIN_ inTime = [c0, c1, c2])
    (hd' : sig'.deltaComSIN_ inTime' = [x, y, z])
    (hc' : sig'.comdotSIN_ inTime' = [c0, c1, c2]) :
    (computeControlFeedback sqrt sig inTime s).1
        = some [MultiBound.single (c0 + -x), MultiBound.single (c1 + -y),
                MultiBound.single (c2 + -z)] ∧
    (computeControlFeedback sqrt sig inTime s).2.dx_ = -x ∧
    (computeControlFeedback sqrt sig inTime s).2.dy_ = -y ∧
    (computeControlFeedback sqrt sig inTime s).2.dz_ = -z ∧
    (computeControlFeedback sqrt' sig' inTime' s').1
        = (computeControlFeedback sqrt sig inTime s).1 ∧
    (computeControlFeedback sqrt' sig' inTime' s').2.dx_
        = (computeControlFeedback sqrt sig inTime s).2.dx_ ∧
    (computeControlFeedback sqrt' sig' inTime' s').2.dy_
        = (computeControlFeedback sqrt sig inTime s).2.dy_ ∧
    (computeControlFeedback sqrt' sig' inTime' s').2.dz_
        = (computeControlFeedback sqrt sig inTime s).2.dz_ := by
  rw [computeControlFeedback_off_run sqrt sig inTime s x y z c0 c1 c2 hoff hd hc,
    computeControlFeedback_off_run sqrt' sig' inTime' s' x y z c0 c1 c2 hoff' hd' hc']
  simp only [and_self]

/-- C3 at a concrete input: a newly constructed controller and one with other
gains, period and integrator state, both off, on `deltaCom = (1, 2, 3)` and zero
reference velocity. -/
theorem computeControlFeedback_no_support_witness :
    (new 0 (fun _ => 0) : Stabilizer ℝ).on_ = false ∧
    (computeControlFeedback Real.sqrt (constantSignals [1, 2, 3] [] [5]) 7
      { (new 2 (fun _ => 4) : Stabilizer ℝ) with
          gain1_ := [1], gain2_ := [], timePeriod_ := 3, dx_ := 8, dy_ := 9 }).1
      = (computeControlFeedback Real.sqrt
          (constantSignals [1, 2, 3] [0, 0, 0, 0] [0, 0, 0, 0]) 0 (new 0 (fun _ => 0))).1 :=
  ⟨rfl, (computeControlFeedback_no_support Real.sqrt Real.sqrt
    (constantSignals [1, 2, 3] [0, 0, 0, 0] [0, 0, 0, 0]) (constantSignals [1, 2, 3] [] [5]) 0 7
    (new 0 (fun _ => 0))
    { (new 2 (fun _ => 4) : Stabilizer ℝ) with
        gain1_ := [1], gain2_ := [], timePeriod_ := 3, dx_ := 8, dy_ := 9 }
    1 2 3 0 0 0 rfl rfl rfl rfl rfl rfl).2.2.2.2.1⟩

/-- C9 as stated fails: with the constructor's gains, zero COM error and zero
flexibility inputs, the prior integrator state `(1, 1)` gives a non-zero
acceleration and moves the integrator. -/
theorem computeControlFeedback_single_zero_inputs_counterexample :
    (startedWith (new 0 (fun _ => 0) : Stabilizer ℝ).gain1_ 1 1).on_ = true ∧
    (computeControlFeedback Real.sqrt (constantSignals [0, 0, 0] [0, 0, 0, 0] [0, 0, 0, 0]) 0
      (startedWith (new 0 (fun _ => 0) : Stabilizer ℝ).gain1_ 1 1)).2.ddx_ ≠ 0 ∧
    (computeControlFeedback Real.sqrt (constantSignals [0, 0, 0] [0, 0, 0, 0] [0, 0, 0, 0]) 0
      (startedWith (new 0 (fun _ => 0) : Stabilizer ℝ).gain1_ 1 1)).2.dx_
      ≠ (startedWith (new 0 (fun _ => 0) : Stabilizer ℝ).gain1_ 1 1).dx_ := by
  rw [computeControlFeedback_single_run Real.sqrt
    (constantSignals [0, 0, 0] [0, 0, 0, 0] [0, 0, 0, 0]) 0
    (startedWith (new 0 (fun _ => 0) : Stabilizer ℝ).gain1_ 1 1)
    177.57303317647063 (-29.735033684033631) 54.413552941176476 (-27.530842352941178)
    0 0 0 0 0 0 0 0 0 0 0 0 0 0 _ _ rfl rfl rfl rfl rfl rfl rfl rfl]
  refine ⟨rfl, ?_, ?_⟩
  · simp [startedWith, new]; norm_num
  · simp [startedWith, new]; norm_num

/-- C9 amended: in single support with zero COM error and zero flexibility
inputs, one call yields `ddx = -(gain1[2]*dx)`, `ddy = -(gain1[2]*dy)` and
integrates them over the period; along an axis whose prior integrator state is
zero the acceleration is zero and the integrator keeps its value. -/
theorem computeControlFeedback_single_zero_inputs {M : Type} (sqrt : α → α)
    (sig : Signals α M) (inTime : Int) (s : Stabilizer α) (kp kpth kd kdth c0 c1 c2 : α)
    (hon : s.on_ = true) (hg : s.gain1_ = [kp, kpth, kd, kdth])
    (hd : sig.deltaComSIN_ inTime = [0, 0, 0]) (hc : sig.comdotSIN_ inTime = [c0, c1, c2])
    (hx : sig.stateFlexXSIN_ inTime = [0, 0, 0, 0])
    (hy : sig.stateFlexYSIN_ inTime = [0, 0, 0, 0]) :
    (computeControlFeedback sqrt sig inTime s).2.ddx_ = -(kd * s.dx_) ∧
    (computeControlFeedback sqrt sig inTime s).2.ddy_ = -(kd * s.dy_) ∧
    (computeControlFeedback sqrt sig inTime s).2.dx_
        = s.dx_ + s.timePeriod_ * -(kd * s.dx_) ∧
    (computeControlFeedback sqrt sig inTime s).2.dy_
        = s.dy_ + s.timePeriod_ * -(kd * s.dy_) ∧
    (s.dx_ = 0 → (computeControlFeedback sqrt sig inTime s).2.ddx_ = 0 ∧
      (computeControlFeedback sqrt sig inTime s).2.dx_ = s.dx_) ∧
    (s.dy_ = 0 → (computeControlFeedback sqrt sig inTime s).2.ddy_ = 0 ∧
      (computeControlFeedback sqrt sig inTime s).2.dy_ = s.dy_) := by
  rw [computeControlFeedback_single_run sqrt sig inTime s kp kpth kd kdth 0 0 0 c0 c1 c2
    0 0 0 0 0 0 0 0 (-(kd * s.dx_)) (-(kd * s.dy_)) hon hg hd hc hx hy (by simp) (by simp)]
  refine ⟨rfl, rfl, rfl, rfl, ?_, ?_⟩
  · intro h0
    simp [h0]
  · intro h0
    simp [h0]

/-- C9 amended, at a concrete input: the constructor's gains and period, prior
integrator state `(0, 0)`. -/
theorem computeControlFeedback_single_zero_inputs_witness :
    (startedWith (new 0 (fun _ => 0) : Stabilizer ℝ).gain1_ 0 0).on_ = true ∧
    (computeControlFeedback Real.sqrt (constantSignals [0, 0, 0] [0, 0, 0, 0] [0, 0, 0, 0]) 0
      (startedWith (new 0 (fun _ => 0) : Stabilizer ℝ).gain1_ 0 0)).2.ddx_ = 0 ∧
    (computeControlFeedback Real.sqrt (constantSignals [0, 0, 0] [0, 0, 0, 0] [0, 0, 0, 0]) 0
      (startedWith (new 0 (fun _ => 0) : Stabilizer ℝ).gain1_ 0 0)).2.dx_
      = (startedWith (new 0 (fun _ => 0) : Stabilizer ℝ).gain1_ 0 0).dx_ :=
  ⟨rfl, (computeControlFeedback_single_zero_inputs Real.sqrt
    (constantSignals [0, 0, 0] [0, 0, 0, 0] [0, 0, 0, 0]) 0
    (startedWith (new 0 (fun _ => 0) : Stabilizer ℝ).gain1_ 0 0)
    177.57303317647063 (-29.735033684033631) 54.413552941176476 (-27.530842352941178)
    0 0 0 rfl rfl rfl rfl rfl rfl).2.2.2.2.1 rfl⟩

/-- The double-support case of the switch, run to its end. -/
theorem controlSwitch_double (sqrt : α → α) (s : Stabilizer α) (L R : MatrixHomogeneous α)
    (x y : α) (flexX flexY : Vector α) (k0 k1 k2 k3 u2x u2y ddxi ddlat : α)
    (hn : s.nbSupport_ = 2) (hg : s.gain2_ = [k0, k1, k2, k3])
    (hu2x : u2x = (L 0 3 - R 0 3) /
      sqrt ((L 0 3 - R 0 3) * (L 0 3 - R 0 3) + (L 1 3 - R 1 3) * (L 1 3 - R 1 3)))
    (hu2y : u2y = (L 1 3 - R 1 3) /
      sqrt ((L 0 3 - R 0 3) * (L 0 3 - R 0 3) + (L 1 3 - R 1 3) * (L 1 3 - R 1 3)))
    (hddxi : ddxi = -(k0 * (u2y * x + -u2x * y)
      + k1 * -(u2x * s.flexAngle_ 0 + u2y * s.flexAngle_ 1)
      + k2 * (u2y * s.dx_ + -u2x * s.dy_)
      + k3 * -(u2x * s.flexDeriv_ 0 + u2y * s.flexDeriv_ 1)))
    (hddlat : ddlat = -2 * (u2x * s.dx_ + u2y * s.dy_) - (u2x * x + u2y * y)) :
    controlSwitch sqrt x y L R flexX flexY s =
      (some (),
        { s with
          ddx_ := ddxi * u2y
          ddy_ := ddxi * -u2x
          dx_ := s.dx_ + s.timePeriod_ * (ddxi * u2y + ddlat * u2x)
          dy_ := s.dy_ + s.timePeriod_ * (ddxi * -u2x + ddlat * u2y) }) := by
  subst hu2x hu2y hddxi hddlat
  unfold controlSwitch
  simp only [Eval.bind_run, Eval.members_run, Eval.assign_run, Eval.check_run, Eval.pure_run,
    hn, hg, List.getElem?_cons_succ, List.getElem?_cons_zero, Option.bind_eq_bind,
    Option.some_bind, Option.pure_def]

end Stabilizer

namespace flexibility

variable {α : Type} [Field α]

/-- The literal `.80` of `zeta_` is the number `0.8`. -/
theorem zeta_literal : (0.80 : α) = 0.8 := by
  simp only [OfScientific.ofScientific]
  congr 1
  apply Subtype.ext
  show Rat.ofScientific 80 true 2 = Rat.ofScientific 8 true 1
  norm_num [Rat.ofScientific]

/-- One prediction step on a five-entry state and a one-entry control. -/
theorem computeNewState_run (cos sin : α → α) (dt xi th dxi dth kth u : α) :
    f.computeNewState cos sin dt [xi, th, dxi, dth, kth] [u] =
      some [xi + dt * dxi,
            th + dt * dth,
            dxi + dt * u,
            dth + dt * (-kth * th
                - Stabilizer.m_ * Stabilizer.g_ * (cos th * xi - sin th * Stabilizer.zeta_)
                + Stabilizer.m_ * (Stabilizer.zeta_ * u - 2 * th * xi * dxi))
              / (Stabilizer.m_ * (xi * xi + Stabilizer.zeta_ * Stabilizer.zeta_)),
            kth] := by
  simp [f.computeNewState]

/-- C4: `computeNewState` returns
`(xi + dt*dxi, theta + dt*dtheta, dxi + dt*u, dtheta + dt*(-k_theta*theta
- m*g*(cos(theta)*xi - sin(theta)*zeta) + m*(zeta*u - 2*theta*xi*dxi))/(m*d2),
k_theta)` with `d2 = xi^2 + zeta^2`, `m = 56`, `g = 9.81`, `zeta = 0.8`. -/
theorem computeNewState_eq (cos sin : α → α)
    (dt xi theta dxi dtheta k_theta u : α) :
    f.computeNewState cos sin dt [xi, theta, dxi, dtheta, k_theta] [u] =
      some [xi + dt * dxi,
            theta + dt * dtheta,
            dxi + dt * u,
            dtheta + dt * (-k_theta * theta
                - 56 * 9.81 * (cos theta * xi - sin theta * 0.8)
                + 56 * (0.8 * u - 2 * theta * xi * dxi)) / (56 * (xi ^ 2 + 0.8 ^ 2)),
            k_theta] := by
  have hz : (0.80 : α) = 0.8 := zeta_literal
  rw [computeNewState_run]
  simp only [Stabilizer.m_, Stabilizer.g_, Stabilizer.zeta_, hz, sq]

/-- C5: `computeJacobian` returns the 5x5 matrix with the eleven listed entries
and zero elsewhere, `d2 = xi^2 + zeta^2`; the control input is not among its
arguments. -/
theorem computeJacobian_eq (cos sin : α → α)
    (dt xi theta dxi dtheta k_theta : α) :
    f.computeJacobian cos sin dt [xi, theta, dxi, dtheta, k_theta] =
      some !![1, 0, dt, 0, 0;
              0, 1, 0, dt, 0;
              0, 0, 1, 0, 0;
              dt * (-9.81 * cos theta - 2 * dtheta * dxi) / (xi ^ 2 + 0.8 ^ 2),
                dt * (-k_theta + 56 * 9.81 * (sin theta * xi + cos theta * 0.8))
                  / (56 * (xi ^ 2 + 0.8 ^ 2)),
                -2 * dt * dtheta * xi / (xi ^ 2 + 0.8 ^ 2),
                1 - 2 * dt * xi * dxi / (xi ^ 2 + 0.8 ^ 2),
                -dt * theta / (56 * (xi ^ 2 + 0.8 ^ 2));
              0, 0, 0, 0, 1] := by
  have hz : (0.80 : α) = 0.8 := zeta_literal
  simp [f.computeJacobian, Stabilizer.m_, Stabilizer.g_, Stabilizer.zeta_, sq, hz]

/-- C7: `computeObservation` returns `(xi, k_theta*theta)`; two evaluations, at
any time indices, on states with the same `xi`, `theta` and `k_theta` return
the same observation, whatever `dxi` and `dtheta` are. -/
theorem computeObservation_eq (stateSIN_ stateSIN_' : Int → Vector α) (time time' : Int)
    (xi theta dxi dtheta k_theta dxi' dtheta' : α)
    (hs : stateSIN_ time = [xi, theta, dxi, dtheta, k_theta])
    (hs' : stateSIN_' time' = [xi, theta, dxi', dtheta', k_theta]) :
    h.computeObservation stateSIN_ time = some [xi, k_theta * theta] ∧
    h.computeObservation stateSIN_' time' = h.computeObservation stateSIN_ time := by
  simp [h.computeObservation, hs, hs']

/-- C7 at a concrete input: the states `(1, 2, 3, 4, 5)` at time 0 and
`(1, 2, 7, 8, 5)` at time 9. -/
theorem computeObservation_eq_witness :
    h.computeObservation (fun _ => [(1 : ℚ), 2, 3, 4, 5]) 0 = some [1, 5 * 2] ∧
    h.computeObservation (fun _ => [(1 : ℚ), 2, 7, 8, 5]) 9
      = h.computeObservation (fun _ => [(1 : ℚ), 2, 3, 4, 5]) 0 :=
  computeObservation_eq (fun _ => [(1 : ℚ), 2, 3, 4, 5]) (fun _ => [(1 : ℚ), 2, 7, 8, 5]) 0 9
    1 2 3 4 5 7 8 rfl rfl

/-- Repeated prediction keeps the fifth entry of a five-entry state. -/
theorem iterateNewState_fifth (cos sin : α → α) (dt k_theta : α) (us : List α) :
    ∀ xi theta dxi dtheta : α,
      (f.iterateNewState cos sin dt [xi, theta, dxi, dtheta, k_theta]
        (us.map fun u => [u])).bind (fun x => x[4]?) = some k_theta := by
  induction us with
  | nil => intro xi theta dxi dtheta; rfl
  | cons u us ih =>
    intro xi theta dxi dtheta
    rw [List.map_cons, f.iterateNewState, computeNewState_run, Option.some_bind]
    exact ih _ _ _ _

/-- C10: the fifth entry of `computeNewState` is the input `k_theta`, and after
any number of steps, one per control of any sequence, the state is a five-entry
vector whose fifth entry is still the initial `k_theta`. -/
theorem computeNewState_k_theta_constant (cos sin : α → α)
    (dt xi theta dxi dtheta k_theta : α) :
    (∀ u : α, (f.computeNewState cos sin dt [xi, theta, dxi, dtheta, k_theta] [u]).bind
      (fun x => x[4]?) = some k_theta) ∧
    (∀ us : List α, (f.iterateNewState cos sin dt [xi, theta, dxi, dtheta, k_theta]
      (us.map fun u => [u])).bind (fun x => x[4]?) = some k_theta) := by
  refine ⟨fun u => ?_, fun us => iterateNewState_fifth cos sin dt k_theta us _ _ _ _⟩
  rw [computeNewState_run]
  rfl

/-- C6: at every state, `k_theta = 0` included, the matrix `computeJacobian`
returns (`H[0,0] = 1`, `H[1,1] = k_theta`, `H[1,4] = theta`, zero elsewhere) is
the matrix of partial derivatives of `computeObservation`: entry `(i, j)` is the
derivative of observation `i` along state entry `j`. -/
theorem h_computeJacobian_partial_derivatives (time : Int)
    (xi theta dxi dtheta k_theta : ℝ) :
    h.computeJacobian (fun _ => [xi, theta, dxi, dtheta, k_theta]) time
      = some !![1, 0, 0, 0, 0; 0, k_theta, 0, 0, theta] ∧
    ∀ (i : Fin 2) (j : Fin 5),
      HasDerivAt
        (alongEntry (fun state => h.computeObservation (fun _ => state) time)
          [xi, theta, dxi, dtheta, k_theta] i j)
        ((!![1, 0, 0, 0, 0; 0, k_theta, 0, 0, theta] : Matrix (Fin 2) (Fin 5) ℝ) i j)
        ([xi, theta, dxi, dtheta, k_theta].getD j 0) := by
  refine ⟨by simp [h.computeJacobian], ?_⟩
  intro i j
  unfold alongEntry component
  fin_cases i <;> fin_cases j <;>
    simp [h.computeObservation, List.set]
  all_goals first
    | exact hasDerivAt_id' _
    | exact hasDerivAt_const _ _
    | simpa using HasDerivAt.const_mul k_theta (hasDerivAt_id' theta)
    | simpa using HasDerivAt.mul_const (hasDerivAt_id' k_theta) theta

/-- C1 fails at the state `(1, 0, 1, 0, 0)` with `u = 0` and `dt = 0.005`: there
`computeNewState` has partial derivative 1 of entry 3 (`dtheta'`) along entry 3
(`dtheta`), and `computeJacobian` returns `J[3,3] = 1 - 2*dt*xi*dxi/d2`, which is
not 1, so `J[3,3]` is not that partial derivative. -/
theorem f_computeJacobian_not_partial_derivative :
    ∃ J : Matrix (Fin 5) (Fin 5) ℝ,
      f.computeJacobian Real.cos Real.sin 0.005 [1, 0, 1, 0, 0] = some J ∧
      HasDerivAt
        (alongEntry (fun state => f.computeNewState Real.cos Real.sin 0.005 state [0])
          [1, 0, 1, 0, 0] 3 3) 1 0 ∧
      J 3 3 = 1 - 2 * 0.005 * 1 * 1 / (1 * 1 + 0.8 * 0.8) ∧
      ¬ HasDerivAt
        (alongEntry (fun state => f.computeNewState Real.cos Real.sin 0.005 state [0])
          [1, 0, 1, 0, 0] 3 3) (J 3 3) 0 := by
  have hd : HasDerivAt
      (alongEntry (fun state => f.computeNewState Real.cos Real.sin 0.005 state [0])
        [1, 0, 1, 0, 0] 3 3) 1 0 := by
    unfold alongEntry component
    simp [computeNewState_run, List.set]
    exact (hasDerivAt_id' (0 : ℝ)).add_const _
  refine ⟨_, rfl, hd, ?_, ?_⟩
  · simp [Stabilizer.zeta_]
    norm_num
  · intro hJ
    have h1 := hJ.unique hd
    simp [Stabilizer.zeta_] at h1
    norm_num at h1


/-- C11: with `sin 0 = 0`, the all-zero state is a fixed point of
`computeNewState` under zero control, for every step `dt`. -/
theorem computeNewState_zero_fixed_point (cos sin : α → α) (dt : α) (hsin : sin 0 = 0) :
    f.computeNewState cos sin dt [0, 0, 0, 0, 0] [0] = some [0, 0, 0, 0, 0] := by
  rw [computeNewState_run]
  simp [hsin]

/-- C11 at the scenario of the spec: the real sine and cosine, `dt = 0.005`. -/
theorem computeNewState_zero_fixed_point_witness :
    Real.sin 0 = 0 ∧
    f.computeNewState Real.cos Real.sin (0.005 : ℝ) [0, 0, 0, 0, 0] [0]
      = some [0, 0, 0, 0, 0] :=
  ⟨Real.sin_zero, computeNewState_zero_fixed_point Real.cos Real.sin 0.005 Real.sin_zero⟩

/-- C12: for every real `xi` the divisors `d2 = xi*xi + zeta*zeta` and `m*d2` of
`computeNewState` and `computeJacobian` are bounded below by `zeta^2 > 0` and
`m*zeta^2 > 0`, so they are not zero. -/
theorem divisors_positive (xi : ℝ) :
    (0 : ℝ) < Stabilizer.zeta_ ^ 2 ∧
    (Stabilizer.zeta_ : ℝ) ^ 2 ≤ xi * xi + Stabilizer.zeta_ * Stabilizer.zeta_ ∧
    (0 : ℝ) < Stabilizer.m_ * Stabilizer.zeta_ ^ 2 ∧
    (Stabilizer.m_ : ℝ) * Stabilizer.zeta_ ^ 2
      ≤ Stabilizer.m_ * (xi * xi + Stabilizer.zeta_ * Stabilizer.zeta_) ∧
    xi * xi + (Stabilizer.zeta_ : ℝ) * Stabilizer.zeta_ ≠ 0 ∧
    (Stabilizer.m_ : ℝ) * (xi * xi + Stabilizer.zeta_ * Stabilizer.zeta_) ≠ 0 := by
  have hz : (0 : ℝ) < Stabilizer.zeta_ ^ 2 := by
    unfold Stabilizer.zeta_
    norm_num
  have hm : (0 : ℝ) < Stabilizer.m_ := by
    unfold Stabilizer.m_
    norm_num
  have hd2 : (Stabilizer.zeta_ : ℝ) ^ 2 ≤ xi * xi + Stabilizer.zeta_ * Stabilizer.zeta_ := by
    nlinarith [mul_self_nonneg xi]
  refine ⟨hz, hd2, mul_pos hm hz, mul_le_mul_of_nonneg_left hd2 hm.le, ?_, ?_⟩
  · exact (lt_of_lt_of_le hz hd2).ne.symm
  · exact (mul_pos hm (lt_of_lt_of_le hz hd2)).ne.symm

end flexibility

/-! ## Properties kept by every evaluation -/

namespace Eval

variable {σ β γ : Type}

theorem inv_pure (P : σ → Prop) (b : β) : Inv P (pure b : Eval σ β) :=
  fun _ hs => hs

theorem inv_check (P : σ → Prop) (o : Option β) : Inv P (check o : Eval σ β) :=
  fun _ hs => hs

theorem inv_members (P : σ → Prop) : Inv P (members : Eval σ σ) :=
  fun _ hs => hs

theorem inv_assign (P : σ → Prop) (w : σ → σ) (hw : ∀ s, P s → P (w s)) :
    Inv P (assign w) :=
  fun s hs => hw s hs

theorem inv_bind (P : σ → Prop) (m : Eval σ β) (k : β → Eval σ γ) (hm : Inv P m)
    (hk : ∀ b, Inv P (k b)) : Inv P (m >>= k) := by
  intro s hs
  have h1 := hm s hs
  rw [bind_run]
  rcases hms : m s with ⟨o, s1⟩
  rw [hms] at h1
  cases o with
  | none => exact h1
  | some b => exact hk b s1 h1

end Eval

namespace Stabilizer

variable {α : Type} [Field α]

/-- The switch keeps every property of the members that the assignments to
`dx_`, `dy_`, `ddx_`, `ddy_` and `debug_` keep. -/
theorem controlSwitch_inv (P : Stabilizer α → Prop)
    (hdx : ∀ s v, P s → P { s with dx_ := v }) (hdy : ∀ s v, P s → P { s with dy_ := v })
    (hddx : ∀ s v, P s → P { s with ddx_ := v }) (hddy : ∀ s v, P s → P { s with ddy_ := v })
    (hdebug : ∀ s v, P s → P { s with debug_ := v })
    (sqrt : α → α) (x y : α) (L R : MatrixHomogeneous α) (flexX flexY : Vector α) :
    Eval.Inv P (controlSwitch sqrt x y L R flexX flexY) := by
  unfold controlSwitch setDebug
  apply Eval.inv_bind _ _ _ (Eval.inv_members P)
  intro s0
  split
  all_goals
    repeat first
      | with_reducible exact Eval.inv_pure _ _
      | with_reducible exact Eval.inv_check _ _
      | with_reducible exact Eval.inv_members _
      | (with_reducible apply Eval.inv_assign
         intro s1 hs1
         first | exact hdx _ _ hs1 | exact hdy _ _ hs1 | exact hddx _ _ hs1
               | exact hddy _ _ hs1 | exact hdebug _ _ hs1)
      | with_reducible apply Eval.inv_bind
      | intro _

/-- `computeControlFeedback` writes only `nbSupport_`, the integrator and
acceleration members, `debug_` and the output signals: a property that does not
depend on them is kept, whether the evaluation ends or stops. -/
theorem computeControlFeedback_inv {M : Type} (P : Stabilizer α → Prop)
    (hP : ∀ s s1 : Stabilizer α, s1.gain1_ = s.gain1_ → s1.gain2_ = s.gain2_ →
      s1.prevCom_ = s.prevCom_ → s1.flexAngle_ = s.flexAngle_ →
      s1.prevFlexAngle_ = s.prevFlexAngle_ → s1.flexDeriv_ = s.flexDeriv_ →
      s1.timePeriod_ = s.timePeriod_ → s1.on_ = s.on_ →
      s1.forceThreshold_ = s.forceThreshold_ → s1.angularStiffness_ = s.angularStiffness_ →
      P s → P s1)
    (sqrt : α → α) (sig : Signals α M) (inTime : Int) :
    Eval.Inv P (computeControlFeedback sqrt sig inTime) := by
  have hsw := controlSwitch_inv P
    (fun s v hs => hP s _ rfl rfl rfl rfl rfl rfl rfl rfl rfl rfl hs)
    (fun s v hs => hP s _ rfl rfl rfl rfl rfl rfl rfl rfl rfl rfl hs)
    (fun s v hs => hP s _ rfl rfl rfl rfl rfl rfl rfl rfl rfl rfl hs)
    (fun s v hs => hP s _ rfl rfl rfl rfl rfl rfl rfl rfl rfl rfl hs)
    (fun s v hs => hP s _ rfl rfl rfl rfl rfl rfl rfl rfl rfl rfl hs) sqrt
  unfold computeControlFeedback
  dsimp only
  repeat first
    | with_reducible exact Eval.inv_pure _ _
    | with_reducible exact Eval.inv_check _ _
    | with_reducible exact Eval.inv_members _
    | with_reducible exact hsw _ _ _ _ _ _
    | (with_reducible apply Eval.inv_assign
       intro s1 hs1
       exact hP s1 _ rfl rfl rfl rfl rfl rfl rfl rfl rfl rfl hs1)
    | with_reducible apply Eval.inv_bind
    | intro _

/-- After an evaluation, ended or stopped, the phase index is 1 when the latch
is on and 0 when it is off. -/
theorem computeControlFeedback_nbSupport {M : Type} (sqrt : α → α) (sig : Signals α M)
    (inTime : Int) (s : Stabilizer α) :
    (computeControlFeedback sqrt sig inTime s).2.nbSupport_ = if s.on_ then 1 else 0 := by
  have hrest : ∀ (m : Eval (Stabilizer α) (VectorMultiBound α)),
      Eval.Inv (fun s1 => s1.nbSupport_ = if s.on_ then 1 else 0) m →
      (((Eval.assign fun s1 : Stabilizer α =>
          { s1 with nbSupport_ := if s1.on_ then 1 else 0 }) >>= fun _ => m) s).2.nbSupport_
        = if s.on_ then 1 else 0 := by
    intro m hm
    rw [Eval.bind_run, Eval.assign_run]
    exact hm _ rfl
  have hsw := controlSwitch_inv (fun s1 : Stabilizer α => s1.nbSupport_ = if s.on_ then 1 else 0)
    (fun _ _ hs => hs) (fun _ _ hs => hs) (fun _ _ hs => hs) (fun _ _ hs => hs)
    (fun _ _ hs => hs) sqrt
  unfold computeControlFeedback
  dsimp only
  apply hrest
  repeat first
    | with_reducible exact Eval.inv_pure _ _
    | with_reducible exact Eval.inv_check _ _
    | with_reducible exact Eval.inv_members _
    | with_reducible exact hsw _ _ _ _ _ _
    | (with_reducible apply Eval.inv_assign
       intro s1 hs1
       exact hs1)
    | with_reducible apply Eval.inv_bind
    | intro _

/-- A property kept by every operation is kept by every sequence of operations. -/
theorem runOps_inv {M : Type} (sqrt : α → α) (P : Stabilizer α → Prop)
    (hop : ∀ (op : Op α M) s, P s → P (op.run sqrt s)) :
    ∀ (ops : List (Op α M)) s, P s → P (runOps sqrt ops s) := by
  intro ops
  induction ops with
  | nil => intro s hs; exact hs
  | cons op ops ih => intro s hs; exact ih _ (hop op s hs)

/-- C13: the latch is one-way. A newly constructed controller is off; an
evaluation while off switches on phase 0 (NoSupport); `start` turns the latch
on; every operation, and so every sequence of operations, on a controller that
is on leaves it on. -/
theorem latch_one_way {M : Type} (sqrt : α → α) :
    (∀ (nbSupport0 : Nat) (debug0 : Fin 11 → α),
      (new nbSupport0 debug0 : Stabilizer α).on_ = false) ∧
    (∀ (sig : Signals α M) (inTime : Int) (s : Stabilizer α), s.on_ = false →
      (computeControlFeedback sqrt sig inTime s).2.nbSupport_ = 0) ∧
    (∀ s : Stabilizer α, (start s).2.on_ = true) ∧
    (∀ (op : Op α M) (s : Stabilizer α), s.on_ = true → (op.run sqrt s).on_ = true) ∧
    (∀ (ops : List (Op α M)) (s : Stabilizer α), s.on_ = true →
      (runOps sqrt ops s).on_ = true) := by
  have hop : ∀ (op : Op α M) (s : Stabilizer α), s.on_ = true → (op.run sqrt s).on_ = true := by
    intro op s hs
    cases op with
    | start => rfl
    | setTimePeriod v => exact hs
    | setGain1 v => exact hs
    | setGain2 v => exact hs
    | computeControlFeedback sig inTime =>
      exact computeControlFeedback_inv (fun s1 => s1.on_ = true)
        (fun _ _ _ _ _ _ _ _ _ hon _ _ h => hon.trans h) sqrt sig inTime s hs
    | computeJacobianCom sig inTime => exact hs
  refine ⟨fun _ _ => rfl, ?_, fun _ => rfl, hop, ?_⟩
  · intro sig inTime s hoff
    rw [computeControlFeedback_nbSupport, hoff]
    rfl
  · exact runOps_inv sqrt (fun s1 => s1.on_ = true) hop

/-- C14 as stated fails: a started controller with prior `dz = 7`, the
constructor's gains, `deltaCom = (1, 2, 3)`, `flexX` of size 4 and `flexY` of
size 2. The evaluation stops at the read of `flexY (3)`, before `dz_ = -z`: no
command is returned and `dz` is still 7, not -3. -/
theorem computeControlFeedback_vertical_counterexample :
    (computeControlFeedback Real.sqrt (constantSignals [1, 2, 3] [0, 0, 0, 0] [0, 0]) 0
      { (startedWith (new 0 (fun _ => 0) : Stabilizer ℝ).gain1_ 0 0) with dz_ := 7 }).1 = none ∧
    (computeControlFeedback Real.sqrt (constantSignals [1, 2, 3] [0, 0, 0, 0] [0, 0]) 0
      { (startedWith (new 0 (fun _ => 0) : Stabilizer ℝ).gain1_ 0 0) with dz_ := 7 }).2.dz_ = 7 ∧
    (computeControlFeedback Real.sqrt (constantSignals [1, 2, 3] [0, 0, 0, 0] [0, 0]) 0
      { (startedWith (new 0 (fun _ => 0) : Stabilizer ℝ).gain1_ 0 0) with dz_ := 7 }).2.dz_
      ≠ -3 := by
  unfold computeControlFeedback controlSwitch setDebug
  simp only [Eval.bind_run, Eval.members_run, Eval.assign_run, Eval.check_run, Eval.pure_run,
    constantSignals, startedWith, new, List.getElem?_cons_succ, List.getElem?_cons_zero,
    List.getElem?_nil, Option.bind_eq_bind, Option.some_bind, Option.pure_def, if_true]
  refine ⟨trivial, trivial, ?_⟩
  norm_num

/-- C14 amended: for every prior controller state with gains of size 4 and
inputs of the sizes of the contract (`deltaCom` and `comdotRef` of size 3,
`flexX` and `flexY` of size 4), in both phases an evaluation can switch on
(latch off or on), the evaluation leaves `dz = -z` and the third component of
the command is `comdotRef[2] - z`; a second controller with any other gains,
period, prior `dz` and latch gives the same vertical correction and the same
third component. -/
theorem computeControlFeedback_vertical {M : Type} (sqrt : α → α) (sig : Signals α M)
    (inTime : Int) (s s' : Stabilizer α)
    (kp kpth kd kdth kp' kpth' kd' kdth' x y z c0 c1 c2 a0 a1 a2 a3 b0 b1 b2 b3 : α)
    (hg : s.gain1_ = [kp, kpth, kd, kdth]) (hg' : s'.gain1_ = [kp', kpth', kd', kdth'])
    (hd : sig.deltaComSIN_ inTime = [x, y, z]) (hc : sig.comdotSIN_ inTime = [c0, c1, c2])
    (hx : sig.stateFlexXSIN_ inTime = [a0, a1, a2, a3])
    (hy : sig.stateFlexYSIN_ inTime = [b0, b1, b2, b3]) :
    (computeControlFeedback sqrt sig inTime s).2.dz_ = -z ∧
    ((computeControlFeedback sqrt sig inTime s).1.bind fun comdot => comdot[2]?)
      = some (MultiBound.single (c2 - z)) ∧
    (computeControlFeedback sqrt sig inTime s').2.dz_
      = (computeControlFeedback sqrt sig inTime s).2.dz_ ∧
    ((computeControlFeedback sqrt sig inTime s').1.bind fun comdot => comdot[2]?)
      = ((computeControlFeedback sqrt sig inTime s).1.bind fun comdot => comdot[2]?) := by
  have key : ∀ (s1 : Stabilizer α) (k0 k1 k2 k3 : α), s1.gain1_ = [k0, k1, k2, k3] →
      (computeControlFeedback sqrt sig inTime s1).2.dz_ = -z ∧
      ((computeControlFeedback sqrt sig inTime s1).1.bind fun comdot => comdot[2]?)
        = some (MultiBound.single (c2 - z)) := by
    intro s1 k0 k1 k2 k3 h1
    cases hon : s1.on_ with
    | false =>
      rw [computeControlFeedback_off_run sqrt sig inTime s1 x y z c0 c1 c2 hon hd hc]
      simp [sub_eq_add_neg]
    | true =>
      rw [computeControlFeedback_single_run sqrt sig inTime s1 k0 k1 k2 k3 x y z c0 c1 c2
        a0 a1 a2 a3 b0 b1 b2 b3 _ _ hon h1 hd hc hx hy rfl rfl]
      simp [sub_eq_add_neg]
  obtain ⟨h1, h2⟩ := key s kp kpth kd kdth hg
  obtain ⟨h3, h4⟩ := key s' kp' kpth' kd' kdth' hg'
  exact ⟨h1, h2, h3.trans h1.symm, h4.trans h2.symm⟩

/-- C14 at a concrete input: a newly constructed controller (off) and a started
one with other gains and period, `deltaCom = (1, 2, 3)`. -/
theorem computeControlFeedback_vertical_witness :
    (computeControlFeedback Real.sqrt
      (constantSignals [1, 2, 3] [0, 0, 0, 0] [0, 0, 0, 0]) 0
      (new 0 (fun _ => 0) : Stabilizer ℝ)).2.dz_ = -3 ∧
    (computeControlFeedback Real.sqrt
      (constantSignals [1, 2, 3] [0, 0, 0, 0] [0, 0, 0, 0]) 0
      { (startedWith [1, 2, 3, 4] 5 6 : Stabilizer ℝ) with timePeriod_ := 7, dz_ := 8 }).2.dz_
      = (computeControlFeedback Real.sqrt
          (constantSignals [1, 2, 3] [0, 0, 0, 0] [0, 0, 0, 0]) 0
          (new 0 (fun _ => 0) : Stabilizer ℝ)).2.dz_ :=
  have h := computeControlFeedback_vertical Real.sqrt
    (constantSignals [1, 2, 3] [0, 0, 0, 0] [0, 0, 0, 0]) 0
    (new 0 (fun _ => 0) : Stabilizer ℝ)
    { (startedWith [1, 2, 3, 4] 5 6 : Stabilizer ℝ) with timePeriod_ := 7, dz_ := 8 }
    177.57303317647063 (-29.735033684033631) 54.413552941176476 (-27.530842352941178)
    1 2 3 4 1 2 3 0 0 0 0 0 0 0 0 0 0 0 rfl rfl rfl rfl rfl rfl
  ⟨h.1, h.2.2.1⟩

/-- C15 as stated fails: on a newly constructed controller (period 0.005),
`setTimePeriod (-1)` is accepted and `getTimePeriod` then returns -1. -/
theorem setTimePeriod_negative_counterexample :
    (getTimePeriod (setTimePeriod (-1) (new 0 (fun _ => 0) : Stabilizer ℝ)).2).1 = some (-1) ∧
    (getTimePeriod (setTimePeriod (-1) (new 0 (fun _ => 0) : Stabilizer ℝ)).2).1
      ≠ (getTimePeriod (new 0 (fun _ => 0) : Stabilizer ℝ)).1 := by
  refine ⟨rfl, ?_⟩
  simp [getTimePeriod, setTimePeriod, new]
  norm_num

/-- C15 amended: `setTimePeriod` stores any value, negative ones included;
`getTimePeriod` then returns that value and the next evaluation in single
support integrates with it. -/
theorem setTimePeriod_stores {M : Type} (sqrt : α → α) (sig : Signals α M) (inTime : Int)
    (s : Stabilizer α) (v kp kpth kd kdth x y z c0 c1 c2 a0 a1 a2 a3 b0 b1 b2 b3 : α)
    (hon : s.on_ = true) (hg : s.gain1_ = [kp, kpth, kd, kdth])
    (hd : sig.deltaComSIN_ inTime = [x, y, z]) (hc : sig.comdotSIN_ inTime = [c0, c1, c2])
    (hx : sig.stateFlexXSIN_ inTime = [a0, a1, a2, a3])
    (hy : sig.stateFlexYSIN_ inTime = [b0, b1, b2, b3]) :
    (setTimePeriod v s).1 = some () ∧
    (getTimePeriod (setTimePeriod v s).2).1 = some v ∧
    (computeControlFeedback sqrt sig inTime (setTimePeriod v s).2).2.dx_
      = s.dx_ + v * -(kp * x + kpth * a1 + kd * s.dx_ + kdth * a3) ∧
    (computeControlFeedback sqrt sig inTime (setTimePeriod v s).2).2.dy_
      = s.dy_ + v * -(kp * y + kpth * b1 + kd * s.dy_ + kdth * b3) := by
  refine ⟨rfl, rfl, ?_, ?_⟩
  · rw [computeControlFeedback_single_run sqrt sig inTime (setTimePeriod v s).2
      kp kpth kd kdth x y z c0 c1 c2 a0 a1 a2 a3 b0 b1 b2 b3 _ _ hon hg hd hc hx hy rfl rfl]
    rfl
  · rw [computeControlFeedback_single_run sqrt sig inTime (setTimePeriod v s).2
      kp kpth kd kdth x y z c0 c1 c2 a0 a1 a2 a3 b0 b1 b2 b3 _ _ hon hg hd hc hx hy rfl rfl]
    rfl

/-- C15 amended, at a concrete input: the period -1 on a started controller with
the constructor's gains. -/
theorem setTimePeriod_stores_witness :
    (startedWith (new 0 (fun _ => 0) : Stabilizer ℝ).gain1_ 1 1).on_ = true ∧
    (getTimePeriod (setTimePeriod (-1)
      (startedWith (new 0 (fun _ => 0) : Stabilizer ℝ).gain1_ 1 1)).2).1 = some (-1) :=
  ⟨rfl, (setTimePeriod_stores Real.sqrt
    (constantSignals [0, 0, 0] [0, 0, 0, 0] [0, 0, 0, 0]) 0
    (startedWith (new 0 (fun _ => 0) : Stabilizer ℝ).gain1_ 1 1) (-1)
    177.57303317647063 (-29.735033684033631) 54.413552941176476 (-27.530842352941178)
    0 0 0 0 0 0 0 0 0 0 0 0 0 0 rfl rfl rfl rfl rfl rfl).2.1⟩

/-- C16 as stated fails: a started controller with the constructor's gains,
`deltaCom = (0.01, 0, 0)`, `flexX` of size 4 and `flexY` of size 2. The
evaluation stops with an error, and `dx` has already been integrated. -/
theorem computeControlFeedback_failed_cycle_counterexample :
    (computeControlFeedback Real.sqrt (constantSignals [0.01, 0, 0] [0, 0, 0, 0] [0, 0]) 0
      (startedWith (new 0 (fun _ => 0) : Stabilizer ℝ).gain1_ 0 0)).1 = none ∧
    (computeControlFeedback Real.sqrt (constantSignals [0.01, 0, 0] [0, 0, 0, 0] [0, 0]) 0
      (startedWith (new 0 (fun _ => 0) : Stabilizer ℝ).gain1_ 0 0)).2.dx_
      ≠ (startedWith (new 0 (fun _ => 0) : Stabilizer ℝ).gain1_ 0 0).dx_ := by
  unfold computeControlFeedback controlSwitch setDebug
  simp only [Eval.bind_run, Eval.members_run, Eval.assign_run, Eval.check_run, Eval.pure_run,
    constantSignals, startedWith, new, List.getElem?_cons_succ, List.getElem?_cons_zero,
    List.getElem?_nil, Option.bind_eq_bind, Option.some_bind, Option.pure_def, if_true]
  refine ⟨trivial, ?_⟩
  norm_num

/-- C16 amended: with the latch on, gains of size 4, `deltaCom` of size 3, `flexX`
of size 4 and `flexY` of size less than 4, the evaluation stops with an error
after the x axis has been integrated: `dx` holds `dx + dt*ddx`, and `dy` and `dz`
keep the values they had before the call. -/
theorem computeControlFeedback_failed_cycle {M : Type} (sqrt : α → α) (sig : Signals α M)
    (inTime : Int) (s : Stabilizer α) (kp kpth kd kdth x y z a0 a1 a2 a3 : α)
    (hon : s.on_ = true) (hg : s.gain1_ = [kp, kpth, kd, kdth])
    (hd : sig.deltaComSIN_ inTime = [x, y, z])
    (hx : sig.stateFlexXSIN_ inTime = [a0, a1, a2, a3])
    (hy : (sig.stateFlexYSIN_ inTime).length < 4) :
    (computeControlFeedback sqrt sig inTime s).1 = none ∧
    (computeControlFeedback sqrt sig inTime s).2.dx_
      = s.dx_ + s.timePeriod_ * -(kp * x + kpth * a1 + kd * s.dx_ + kdth * a3) ∧
    (computeControlFeedback sqrt sig inTime s).2.dy_ = s.dy_ ∧
    (computeControlFeedback sqrt sig inTime s).2.dz_ = s.dz_ := by
  have h3 : (sig.stateFlexYSIN_ inTime)[3]? = none := List.getElem?_eq_none (by omega)
  unfold computeControlFeedback controlSwitch setDebug
  simp only [Eval.bind_run, Eval.members_run, Eval.assign_run, Eval.check_run, Eval.pure_run,
    hon, hg, hd, hx, h3, List.getElem?_cons_succ, List.getElem?_cons_zero,
    Option.bind_eq_bind, Option.some_bind, Option.pure_def, if_true]
  cases h1 : (sig.stateFlexYSIN_ inTime)[1]? with
  | none => simp only [and_self]
  | some b1 => simp only [and_self]

/-- C16 amended, at the input of the claim's example: `flexX` of size 4 and
`flexY` of size 2 on a started controller. -/
theorem computeControlFeedback_failed_cycle_witness :
    (startedWith (new 0 (fun _ => 0) : Stabilizer ℝ).gain1_ 0 0).on_ = true ∧
    (computeControlFeedback Real.sqrt (constantSignals [0.01, 0, 0] [0, 0, 0, 0] [0, 0]) 0
      (startedWith (new 0 (fun _ => 0) : Stabilizer ℝ).gain1_ 0 0)).2.dy_
      = (startedWith (new 0 (fun _ => 0) : Stabilizer ℝ).gain1_ 0 0).dy_ :=
  ⟨rfl, (computeControlFeedback_failed_cycle Real.sqrt
    (constantSignals [0.01, 0, 0] [0, 0, 0, 0] [0, 0]) 0
    (startedWith (new 0 (fun _ => 0) : Stabilizer ℝ).gain1_ 0 0)
    177.57303317647063 (-29.735033684033631) 54.413552941176476 (-27.530842352941178)
    0.01 0 0 0 0 0 0 rfl rfl rfl rfl (by decide)).2.2.1⟩

/-- C17: an access to `taskSOUT` that returned a command, repeated at the same
time index, returns the same command and leaves the controller, its integrator
included, and the cache as the first access left them. -/
theorem taskSOUT_idempotent {M : Type} (sqrt : α → α) (sig : Signals α M) (inTime : Int)
    (c : TaskSignal α) (comdot : VectorMultiBound α)
    (h1 : (taskSOUT sqrt sig inTime c).1 = some comdot) :
    taskSOUT sqrt sig inTime (taskSOUT sqrt sig inTime c).2
      = (some comdot, (taskSOUT sqrt sig inTime c).2) := by
  have hre : (taskSOUT_recompute sqrt sig inTime c).1 = some comdot →
      taskSOUT sqrt sig inTime (taskSOUT_recompute sqrt sig inTime c).2
        = (some comdot, (taskSOUT_recompute sqrt sig inTime c).2) := by
    unfold taskSOUT_recompute
    rcases hrun : computeControlFeedback sqrt sig inTime c.entity with ⟨o, s1⟩
    cases o with
    | none => intro h; simp at h
    | some v =>
      intro h
      simp only [Option.some.injEq] at h
      subst h
      simp [taskSOUT]
  unfold taskSOUT at h1 ⊢
  rcases hc : c.cache with _ | ⟨t, v⟩
  · simp only [hc] at h1 ⊢
    exact hre h1
  · simp only [hc] at h1 ⊢
    by_cases ht : inTime ≤ t
    · simp only [ht, if_true] at h1 ⊢
      simp only [Option.some.injEq] at h1
      subst h1
      simp [hc, ht]
    · simp only [ht, if_false] at h1 ⊢
      exact hre h1

/-- C17 at a concrete input: a started controller in single support, no value
cached yet, accessed twice at time 3. -/
theorem taskSOUT_idempotent_witness :
    (taskSOUT Real.sqrt (constantSignals [0.01, 0, 0] [0, 0, 0, 0] [0, 0, 0, 0]) 3
      (taskSOUT Real.sqrt (constantSignals [0.01, 0, 0] [0, 0, 0, 0] [0, 0, 0, 0]) 3
        { entity := startedWith (new 0 (fun _ => 0) : Stabilizer ℝ).gain1_ 1 1,
          cache := none }).2).2.entity.dx_
      = (taskSOUT Real.sqrt (constantSignals [0.01, 0, 0] [0, 0, 0, 0] [0, 0, 0, 0]) 3
        { entity := startedWith (new 0 (fun _ => 0) : Stabilizer ℝ).gain1_ 1 1,
          cache := none }).2.entity.dx_ := by
  have hfirst : ∃ comdot,
      (taskSOUT Real.sqrt (constantSignals [0.01, 0, 0] [0, 0, 0, 0] [0, 0, 0, 0]) 3
        { entity := startedWith (new 0 (fun _ => 0) : Stabilizer ℝ).gain1_ 1 1,
          cache := none }).1 = some comdot := by
    unfold taskSOUT taskSOUT_recompute
    simp only
    rw [computeControlFeedback_single_run Real.sqrt _ 3 _
      177.57303317647063 (-29.735033684033631) 54.413552941176476 (-27.530842352941178)
      0.01 0 0 0 0 0 0 0 0 0 0 0 0 0 _ _ rfl rfl rfl rfl rfl rfl rfl rfl]
    exact ⟨_, rfl⟩
  obtain ⟨comdot, h1⟩ := hfirst
  rw [taskSOUT_idempotent Real.sqrt _ 3 _ comdot h1]

/-- The unit vector along the line joining two distinct points of the plane. -/
theorem unit_axis (delta_x delta_y : ℝ) (hfeet : delta_x ≠ 0 ∨ delta_y ≠ 0) :
    delta_x / Real.sqrt (delta_x * delta_x + delta_y * delta_y)
        * (delta_x / Real.sqrt (delta_x * delta_x + delta_y * delta_y))
      + delta_y / Real.sqrt (delta_x * delta_x + delta_y * delta_y)
        * (delta_y / Real.sqrt (delta_x * delta_x + delta_y * delta_y)) = 1 := by
  have hpos : 0 < delta_x * delta_x + delta_y * delta_y := by
    rcases hfeet with h | h
    · have := mul_self_pos.mpr h
      nlinarith [mul_self_nonneg delta_y]
    · have := mul_self_pos.mpr h
      nlinarith [mul_self_nonneg delta_x]
  have hn : Real.sqrt (delta_x * delta_x + delta_y * delta_y) ≠ 0 :=
    (Real.sqrt_pos.mpr hpos).ne.symm
  have hsq : Real.sqrt (delta_x * delta_x + delta_y * delta_y)
      * Real.sqrt (delta_x * delta_x + delta_y * delta_y)
      = delta_x * delta_x + delta_y * delta_y := Real.mul_self_sqrt hpos.le
  field_simp

/-- C18: in the double-support case, when the two foot poses have different
horizontal translations, `u2 = (delta_x, delta_y)/norm` is a unit vector,
`u1 = (u2y, -u2x)` is a unit vector orthogonal to it, and the integrator update
decouples: `u1·(dx', dy') = dxi + dt*ddxi` and
`u2·(dx', dy') = dlat + dt*(-2*dlat - lat)`. -/
theorem controlSwitch_double_decoupled (s : Stabilizer ℝ) (L R : MatrixHomogeneous ℝ)
    (x y : ℝ) (flexX flexY : Vector ℝ) (k0 k1 k2 k3 : ℝ)
    (hn : s.nbSupport_ = 2) (hg : s.gain2_ = [k0, k1, k2, k3])
    (hfeet : L 0 3 ≠ R 0 3 ∨ L 1 3 ≠ R 1 3) :
    let delta_x := L 0 3 - R 0 3
    let delta_y := L 1 3 - R 1 3
    let norm := Real.sqrt (delta_x * delta_x + delta_y * delta_y)
    let u2x := delta_x / norm
    let u2y := delta_y / norm
    let u1x := u2y
    let u1y := -u2x
    let theta := -(u2x * s.flexAngle_ 0 + u2y * s.flexAngle_ 1)
    let dtheta := -(u2x * s.flexDeriv_ 0 + u2y * s.flexDeriv_ 1)
    let xi := u1x * x + u1y * y
    let dxi := u1x * s.dx_ + u1y * s.dy_
    let ddxi := -(k0 * xi + k1 * theta + k2 * dxi + k3 * dtheta)
    let lat := u2x * x + u2y * y
    let dlat := u2x * s.dx_ + u2y * s.dy_
    let after := (controlSwitch Real.sqrt x y L R flexX flexY s).2
    u2x * u2x + u2y * u2y = 1 ∧
    u1x * u1x + u1y * u1y = 1 ∧
    u1x * u2x + u1y * u2y = 0 ∧
    u1x * after.dx_ + u1y * after.dy_ = dxi + s.timePeriod_ * ddxi ∧
    u2x * after.dx_ + u2y * after.dy_ = dlat + s.timePeriod_ * (-2 * dlat - lat) := by
  intro delta_x delta_y norm u2x u2y u1x u1y theta dtheta xi dxi ddxi lat dlat after
  have hunit : u2x * u2x + u2y * u2y = 1 :=
    unit_axis delta_x delta_y (by
      rcases hfeet with h | h
      · exact Or.inl (sub_ne_zero.mpr h)
      · exact Or.inr (sub_ne_zero.mpr h))
  have hafter : after = { s with
      ddx_ := ddxi * u2y
      ddy_ := ddxi * -u2x
      dx_ := s.dx_ + s.timePeriod_ * (ddxi * u2y + (-2 * dlat - lat) * u2x)
      dy_ := s.dy_ + s.timePeriod_ * (ddxi * -u2x + (-2 * dlat - lat) * u2y) } := by
    show (controlSwitch Real.sqrt x y L R flexX flexY s).2 = _
    rw [controlSwitch_double Real.sqrt s L R x y flexX flexY k0 k1 k2 k3 u2x u2y ddxi
      (-2 * dlat - lat) hn hg rfl rfl rfl rfl]
  rw [hafter]
  refine ⟨hunit, ?_, ?_, ?_, ?_⟩
  · show u2y * u2y + -u2x * -u2x = 1
    linear_combination hunit
  · show u2y * u2x + -u2x * u2y = 0
    ring
  · show u2y * (s.dx_ + s.timePeriod_ * (ddxi * u2y + (-2 * dlat - lat) * u2x))
        + -u2x * (s.dy_ + s.timePeriod_ * (ddxi * -u2x + (-2 * dlat - lat) * u2y))
        = (u2y * s.dx_ + -u2x * s.dy_) + s.timePeriod_ * ddxi
    linear_combination (s.timePeriod_ * ddxi) * hunit
  · show u2x * (s.dx_ + s.timePeriod_ * (ddxi * u2y + (-2 * dlat - lat) * u2x))
        + u2y * (s.dy_ + s.timePeriod_ * (ddxi * -u2x + (-2 * dlat - lat) * u2y))
        = (u2x * s.dx_ + u2y * s.dy_) + s.timePeriod_ * (-2 * dlat - lat)
    linear_combination (s.timePeriod_ * (-2 * dlat - lat)) * hunit

/-- C18 at a concrete input: feet at `(0, 0.1)` and `(0, -0.1)`, the
constructor's gains, prior integrator state `(1, 2)`. -/
theorem controlSwitch_double_decoupled_witness :
    ((footAt 0 0.1 : MatrixHomogeneous ℝ) 0 3 ≠ (footAt 0 (-0.1) : MatrixHomogeneous ℝ) 0 3 ∨
      (footAt 0 0.1 : MatrixHomogeneous ℝ) 1 3 ≠ (footAt 0 (-0.1) : MatrixHomogeneous ℝ) 1 3) ∧
    (let delta_x := (footAt 0 0.1 : MatrixHomogeneous ℝ) 0 3 - footAt 0 (-0.1) 0 3
     let delta_y := (footAt 0 0.1 : MatrixHomogeneous ℝ) 1 3 - footAt 0 (-0.1) 1 3
     let norm := Real.sqrt (delta_x * delta_x + delta_y * delta_y)
     delta_x / norm * (delta_x / norm) + delta_y / norm * (delta_y / norm) = 1) := by
  have hfeet : (footAt 0 0.1 : MatrixHomogeneous ℝ) 0 3
        ≠ (footAt 0 (-0.1) : MatrixHomogeneous ℝ) 0 3 ∨
      (footAt 0 0.1 : MatrixHomogeneous ℝ) 1 3
        ≠ (footAt 0 (-0.1) : MatrixHomogeneous ℝ) 1 3 := by
    right
    simp [footAt]
    norm_num
  exact ⟨hfeet, (controlSwitch_double_decoupled
    { (new 0 (fun _ => 0) : Stabilizer ℝ) with nbSupport_ := 2, dx_ := 1, dy_ := 2 }
    (footAt 0 0.1) (footAt 0 (-0.1)) 0.01 0.02 [] []
    82.655266588235293 36.712572443697468 27.206776470588238 (-5.76542117647059)
    rfl rfl hfeet).1⟩

/-- No operation writes `flexAngle_` or `flexDeriv_`. -/
theorem op_keeps_flex {M : Type} (sqrt : α → α) (op : Op α M) (s : Stabilizer α)
    (hs : (∀ i, s.flexAngle_ i = 0) ∧ (∀ i, s.flexDeriv_ i = 0)) :
    (∀ i, (op.run sqrt s).flexAngle_ i = 0) ∧ (∀ i, (op.run sqrt s).flexDeriv_ i = 0) := by
  cases op with
  | start => exact hs
  | setTimePeriod v => exact hs
  | setGain1 v => exact hs
  | setGain2 v => exact hs
  | computeControlFeedback sig inTime =>
    exact computeControlFeedback_inv
      (fun s1 => (∀ i, s1.flexAngle_ i = 0) ∧ (∀ i, s1.flexDeriv_ i = 0))
      (fun _ _ _ _ _ ha _ hd _ _ _ _ h =>
        ⟨fun i => by rw [ha]; exact h.1 i, fun i => by rw [hd]; exact h.2 i⟩)
      sqrt sig inTime s hs
  | computeJacobianCom sig inTime => exact hs

/-- In every reachable state `flexAngle_` and `flexDeriv_` are zero. -/
theorem reachable_flex_zero {M : Type} (sqrt : α → α) (s : Stabilizer α)
    (hr : Reachable M sqrt s) :
    (∀ i, s.flexAngle_ i = 0) ∧ (∀ i, s.flexDeriv_ i = 0) := by
  obtain ⟨nb0, debug0, ops, rfl⟩ := hr
  exact runOps_inv sqrt (fun s1 => (∀ i, s1.flexAngle_ i = 0) ∧ (∀ i, s1.flexDeriv_ i = 0))
    (op_keeps_flex sqrt) ops _ ⟨fun _ => rfl, fun _ => rfl⟩

/-- The double-support case on a state whose `flexAngle_` and `flexDeriv_` are
zero: the angle terms vanish and the members after the case do not depend on
`flexX`, `flexY`, `gain2[1]` or `gain2[3]`. -/
theorem controlSwitch_double_flex_zero (sqrt : α → α) (s : Stabilizer α)
    (L R : MatrixHomogeneous α) (x y : α) (flexX flexY : Vector α)
    (k0 k1 k2 k3 u2x u2y : α)
    (hA : ∀ i, s.flexAngle_ i = 0) (hD : ∀ i, s.flexDeriv_ i = 0)
    (hn : s.nbSupport_ = 2) (hg : s.gain2_ = [k0, k1, k2, k3])
    (hu2x : u2x = (L 0 3 - R 0 3) /
      sqrt ((L 0 3 - R 0 3) * (L 0 3 - R 0 3) + (L 1 3 - R 1 3) * (L 1 3 - R 1 3)))
    (hu2y : u2y = (L 1 3 - R 1 3) /
      sqrt ((L 0 3 - R 0 3) * (L 0 3 - R 0 3) + (L 1 3 - R 1 3) * (L 1 3 - R 1 3))) :
    (controlSwitch sqrt x y L R flexX flexY s).2 =
      { s with
        ddx_ := -(k0 * (u2y * x + -u2x * y) + k2 * (u2y * s.dx_ + -u2x * s.dy_)) * u2y
        ddy_ := -(k0 * (u2y * x + -u2x * y) + k2 * (u2y * s.dx_ + -u2x * s.dy_)) * -u2x
        dx_ := s.dx_ + s.timePeriod_ *
          (-(k0 * (u2y * x + -u2x * y) + k2 * (u2y * s.dx_ + -u2x * s.dy_)) * u2y
            + (-2 * (u2x * s.dx_ + u2y * s.dy_) - (u2x * x + u2y * y)) * u2x)
        dy_ := s.dy_ + s.timePeriod_ *
          (-(k0 * (u2y * x + -u2x * y) + k2 * (u2y * s.dx_ + -u2x * s.dy_)) * -u2x
            + (-2 * (u2x * s.dx_ + u2y * s.dy_) - (u2x * x + u2y * y)) * u2y) } := by
  rw [controlSwitch_double sqrt s L R x y flexX flexY k0 k1 k2 k3 u2x u2y
    (-(k0 * (u2y * x + -u2x * y) + k2 * (u2y * s.dx_ + -u2x * s.dy_)))
    (-2 * (u2x * s.dx_ + u2y * s.dy_) - (u2x * x + u2y * y)) hn hg hu2x hu2y
    (by simp [hA, hD]) rfl]

/-- C19: in every reachable state `s`, whatever its integrator state,
`flexAngle_` and `flexDeriv_` are zero. So when the double-support case is run
on the members of `s` (phase index 2), `theta = 0`, `dtheta = 0` and
`ddxi = -(gain2[0]*xi + gain2[2]*dxi)`, which the accelerations `ddx = ddxi*u1x`
and `ddy = ddxi*u1y` and the integrated `dx'`, `dy'` show, and the members
after the case are the same for other `flexX`, `flexY`, `gain2[1]` and
`gain2[3]`, the gains apart. -/
theorem controlSwitch_double_ignores_flex {M : Type} (sqrt : α → α) (s : Stabilizer α)
    (hr : Reachable M sqrt s) (L R : MatrixHomogeneous α) (x y : α)
    (flexX flexY flexX' flexY' : Vector α) (k0 k1 k2 k3 k1' k3' : α)
    (hg : s.gain2_ = [k0, k1, k2, k3]) :
    let delta_x := L 0 3 - R 0 3
    let delta_y := L 1 3 - R 1 3
    let norm := sqrt (delta_x * delta_x + delta_y * delta_y)
    let u2x := delta_x / norm
    let u2y := delta_y / norm
    let u1x := u2y
    let u1y := -u2x
    let xi := u1x * x + u1y * y
    let dxi := u1x * s.dx_ + u1y * s.dy_
    let lat := u2x * x + u2y * y
    let dlat := u2x * s.dx_ + u2y * s.dy_
    let ddxi := -(k0 * xi + k2 * dxi)
    let after := (controlSwitch sqrt x y L R flexX flexY { s with nbSupport_ := 2 }).2
    let after' := (controlSwitch sqrt x y L R flexX' flexY'
      { s with nbSupport_ := 2, gain2_ := [k0, k1', k2, k3'] }).2
    (∀ i, s.flexAngle_ i = 0) ∧ (∀ i, s.flexDeriv_ i = 0) ∧
    -(u2x * s.flexAngle_ 0 + u2y * s.flexAngle_ 1) = 0 ∧
    -(u2x * s.flexDeriv_ 0 + u2y * s.flexDeriv_ 1) = 0 ∧
    after.ddx_ = ddxi * u1x ∧
    after.ddy_ = ddxi * u1y ∧
    after.dx_ = s.dx_ + s.timePeriod_ * (ddxi * u1x + (-2 * dlat - lat) * u2x) ∧
    after.dy_ = s.dy_ + s.timePeriod_ * (ddxi * u1y + (-2 * dlat - lat) * u2y) ∧
    after' = { after with gain2_ := [k0, k1', k2, k3'] } := by
  intro delta_x delta_y norm u2x u2y u1x u1y xi dxi lat dlat ddxi after after'
  obtain ⟨ha, hd⟩ := reachable_flex_zero sqrt s hr
  have hafter : after = _ :=
    controlSwitch_double_flex_zero sqrt { s with nbSupport_ := 2 } L R x y flexX flexY
      k0 k1 k2 k3 u2x u2y ha hd rfl hg rfl rfl
  have hafter' : after' = _ :=
    controlSwitch_double_flex_zero sqrt { s with nbSupport_ := 2, gain2_ := [k0, k1', k2, k3'] }
      L R x y flexX' flexY' k0 k1' k2 k3' u2x u2y ha hd rfl rfl rfl rfl
  refine ⟨ha, hd, by simp [ha], by simp [hd], ?_, ?_, ?_, ?_, ?_⟩
  · rw [hafter]
  · rw [hafter]
  · rw [hafter]
  · rw [hafter]
  · rw [hafter, hafter']

/-- C19 at a concrete input: the controller after one evaluation with the latch
off on `deltaCom = (1, 2, 3)`, whose integrator state is `(-1, -2)`; with the
feet at `(0, 0.1)` and `(0, -0.1)` and zero COM error the double-support case
run on its members gives `ddx = -(gain2[2]*dxi)` with `dxi = -1`. -/
theorem controlSwitch_double_ignores_flex_witness :
    Reachable Unit Real.sqrt
      (runOps Real.sqrt
        [Op.computeControlFeedback (constantSignals [1, 2, 3] [0, 0, 0, 0] [0, 0, 0, 0]) 0]
        (new 0 (fun _ => 0) : Stabilizer ℝ)) ∧
    (runOps Real.sqrt
        [Op.computeControlFeedback (constantSignals [1, 2, 3] [0, 0, 0, 0] [0, 0, 0, 0]) 0]
        (new 0 (fun _ => 0) : Stabilizer ℝ)).dx_ = -1 ∧
    (controlSwitch Real.sqrt 0 0 (footAt 0 0.1) (footAt 0 (-0.1)) [] []
      { (runOps Real.sqrt
          [Op.computeControlFeedback (constantSignals [1, 2, 3] [0, 0, 0, 0] [0, 0, 0, 0]) 0]
          (new 0 (fun _ => 0) : Stabilizer ℝ)) with nbSupport_ := 2 }).2.ddx_
      = 27.206776470588238 := by
  have hrun : runOps Real.sqrt
      [Op.computeControlFeedback (constantSignals [1, 2, 3] [0, 0, 0, 0] [0, 0, 0, 0]) 0]
      (new 0 (fun _ => 0) : Stabilizer ℝ)
      = (computeControlFeedback Real.sqrt
          (constantSignals [1, 2, 3] [0, 0, 0, 0] [0, 0, 0, 0]) 0
          (new 0 (fun _ => 0) : Stabilizer ℝ)).2 := rfl
  have hr : Reachable Unit Real.sqrt
      (runOps Real.sqrt
        [Op.computeControlFeedback (constantSignals [1, 2, 3] [0, 0, 0, 0] [0, 0, 0, 0]) 0]
        (new 0 (fun _ => 0) : Stabilizer ℝ)) := ⟨0, fun _ => 0, _, rfl⟩
  have hg : (runOps Real.sqrt
      [Op.computeControlFeedback (constantSignals [1, 2, 3] [0, 0, 0, 0] [0, 0, 0, 0]) 0]
      (new 0 (fun _ => 0) : Stabilizer ℝ)).gain2_
      = [82.655266588235293, 36.712572443697468, 27.206776470588238, -5.76542117647059] := by
    rw [hrun, computeControlFeedback_off_run Real.sqrt _ 0 _ 1 2 3 0 0 0 rfl rfl rfl]
    rfl
  have hdx : (runOps Real.sqrt
      [Op.computeControlFeedback (constantSignals [1, 2, 3] [0, 0, 0, 0] [0, 0, 0, 0]) 0]
      (new 0 (fun _ => 0) : Stabilizer ℝ)).dx_ = -1 := by
    rw [hrun, computeControlFeedback_off_run Real.sqrt _ 0 _ 1 2 3 0 0 0 rfl rfl rfl]
  have hdy : (runOps Real.sqrt
      [Op.computeControlFeedback (constantSignals [1, 2, 3] [0, 0, 0, 0] [0, 0, 0, 0]) 0]
      (new 0 (fun _ => 0) : Stabilizer ℝ)).dy_ = -2 := by
    rw [hrun, computeControlFeedback_off_run Real.sqrt _ 0 _ 1 2 3 0 0 0 rfl rfl rfl]
  have h := (controlSwitch_double_ignores_flex Real.sqrt _ hr (footAt 0 0.1)
    (footAt 0 (-0.1)) 0 0 [] [] [1, 2, 3, 4] [5, 6, 7, 8]
    82.655266588235293 36.712572443697468 27.206776470588238 (-5.76542117647059) 1 2
    hg).2.2.2.2.1
  refine ⟨hr, hdx, ?_⟩
  rw [h, hdx, hdy]
  have h25 : Real.sqrt 25 = 5 := by
    rw [show (25 : ℝ) = 5 * 5 by norm_num, Real.sqrt_mul_self (by norm_num)]
  simp [footAt]
  norm_num
  rw [h25]
  norm_num

/-- C20 as stated fails: with the latch off and `deltaCom = (1, 2, 3)`, entry 0
of the debug vector after the evaluation is 0, not the error term `x = 1`. -/
theorem computeControlFeedback_debug_counterexample :
    (computeControlFeedback Real.sqrt (constantSignals [1, 2, 3] [0, 0, 0, 0] [0, 0, 0, 0]) 0
      (new 0 (fun _ => 0) : Stabilizer ℝ)).2.debug_ 0 = 0 ∧
    (computeControlFeedback Real.sqrt (constantSignals [1, 2, 3] [0, 0, 0, 0] [0, 0, 0, 0]) 0
      (new 0 (fun _ => 0) : Stabilizer ℝ)).2.debug_ 0 ≠ 1 := by
  rw [computeControlFeedback_off_run Real.sqrt _ 0 _ 1 2 3 0 0 0 rfl rfl rfl]
  simp

/-- C20 amended: an evaluation in single support (latch on) leaves the debug
vector at `(x, theta_x, dx, dtheta_x, ddx, y, theta_y, dy, dtheta_y, ddy, 1)`,
where `dx` and `dy` are the integrator states before the evaluation; an
evaluation with the latch off leaves it all zero, entry 10 being the phase
index 0. In both phases the signal `debug` holds the same eleven values and the
command does not depend on the previous contents of the debug vector. -/
theorem computeControlFeedback_debug {M : Type} (sqrt : α → α) (sig : Signals α M)
    (inTime : Int) (s : Stabilizer α)
    (kp kpth kd kdth x y z c0 c1 c2 a0 a1 a2 a3 b0 b1 b2 b3 : α)
    (hg : s.gain1_ = [kp, kpth, kd, kdth])
    (hd : sig.deltaComSIN_ inTime = [x, y, z]) (hc : sig.comdotSIN_ inTime = [c0, c1, c2])
    (hx : sig.stateFlexXSIN_ inTime = [a0, a1, a2, a3])
    (hy : sig.stateFlexYSIN_ inTime = [b0, b1, b2, b3]) :
    (s.on_ = true →
      (computeControlFeedback sqrt sig inTime s).2.debug_
        = ![x, a1, s.dx_, a3, -(kp * x + kpth * a1 + kd * s.dx_ + kdth * a3),
            y, b1, s.dy_, b3, -(kp * y + kpth * b1 + kd * s.dy_ + kdth * b3), 1] ∧
      (computeControlFeedback sqrt sig inTime s).2.debugSOUT_
        = [x, a1, s.dx_, a3, -(kp * x + kpth * a1 + kd * s.dx_ + kdth * a3),
           y, b1, s.dy_, b3, -(kp * y + kpth * b1 + kd * s.dy_ + kdth * b3), 1]) ∧
    (s.on_ = false →
      (computeControlFeedback sqrt sig inTime s).2.debug_ = (fun _ => 0) ∧
      (computeControlFeedback sqrt sig inTime s).2.debugSOUT_ = List.replicate 11 0) ∧
    (∀ debug0 : Fin 11 → α,
      (computeControlFeedback sqrt sig inTime { s with debug_ := debug0 }).1
        = (computeControlFeedback sqrt sig inTime s).1) := by
  refine ⟨fun hon => ?_, fun hoff => ?_, fun debug0 => ?_⟩
  · rw [computeControlFeedback_single_run sqrt sig inTime s kp kpth kd kdth x y z c0 c1 c2
      a0 a1 a2 a3 b0 b1 b2 b3 _ _ hon hg hd hc hx hy rfl rfl]
    exact ⟨rfl, rfl⟩
  · rw [computeControlFeedback_off_run sqrt sig inTime s x y z c0 c1 c2 hoff hd hc]
    exact ⟨rfl, rfl⟩
  · rcases Bool.eq_false_or_eq_true s.on_ with hon | hon
    · rw [computeControlFeedback_single_run sqrt sig inTime s kp kpth kd kdth x y z c0 c1 c2
          a0 a1 a2 a3 b0 b1 b2 b3 _ _ hon hg hd hc hx hy rfl rfl,
        computeControlFeedback_single_run sqrt sig inTime { s with debug_ := debug0 }
          kp kpth kd kdth x y z c0 c1 c2
          a0 a1 a2 a3 b0 b1 b2 b3 _ _ hon hg hd hc hx hy rfl rfl]
    · rw [computeControlFeedback_off_run sqrt sig inTime s x y z c0 c1 c2 hon hd hc,
        computeControlFeedback_off_run sqrt sig inTime { s with debug_ := debug0 }
          x y z c0 c1 c2 hon hd hc]

/-- C20 amended, at a concrete input: a started controller with the
constructor's gains, integrator state `(1, 2)` and `deltaCom = (0.01, 0.02, 0)`;
entry 2 of the debug vector is the prior `dx = 1`. -/
theorem computeControlFeedback_debug_witness :
    (startedWith (new 0 (fun _ => 0) : Stabilizer ℝ).gain1_ 1 2).on_ = true ∧
    (computeControlFeedback Real.sqrt
      (constantSignals [0.01, 0.02, 0] [0, 0, 0, 0] [0, 0, 0, 0]) 0
      (startedWith (new 0 (fun _ => 0) : Stabilizer ℝ).gain1_ 1 2)).2.debug_ 2 = 1 := by
  have h := (computeControlFeedback_debug Real.sqrt
    (constantSignals [0.01, 0.02, 0] [0, 0, 0, 0] [0, 0, 0, 0]) 0
    (startedWith (new 0 (fun _ => 0) : Stabilizer ℝ).gain1_ 1 2)
    177.57303317647063 (-29.735033684033631) 54.413552941176476 (-27.530842352941178)
    0.01 0.02 0 0 0 0 0 0 0 0 0 0 0 0 rfl rfl rfl rfl rfl).1 rfl
  refine ⟨rfl, ?_⟩
  rw [h.1]
  rfl

/-- The cases 0 and 1 of the switch read neither the foot poses nor `sqrt`. -/
theorem controlSwitch_feet (sqrt sqrt' : α → α) (x y : α) (L R L' R' : MatrixHomogeneous α)
    (flexX flexY : Vector α) (s : Stabilizer α) (n : Nat) (hn : s.nbSupport_ = n)
    (hle : n = 0 ∨ n = 1) :
    controlSwitch sqrt x y L R flexX flexY s = controlSwitch sqrt' x y L' R' flexX flexY s := by
  unfold controlSwitch
  rcases hle with h | h
  · subst h
    simp only [Eval.bind_run, Eval.members_run, hn]
  · subst h
    simp only [Eval.bind_run, Eval.members_run, hn]

/-- The switch keeps entry 10 of the debug vector. -/
theorem controlSwitch_debug10 (c : α) (sqrt : α → α) (x y : α) (L R : MatrixHomogeneous α)
    (flexX flexY : Vector α) :
    Eval.Inv (fun s : Stabilizer α => s.debug_ 10 = c)
      (controlSwitch sqrt x y L R flexX flexY) := by
  unfold controlSwitch setDebug
  apply Eval.inv_bind (fun s : Stabilizer α => s.debug_ 10 = c) _ _ (Eval.inv_members _)
  intro s0
  split
  all_goals
    repeat first
      | with_reducible exact Eval.inv_pure _ _
      | with_reducible exact Eval.inv_check _ _
      | with_reducible exact Eval.inv_members _
      | (with_reducible apply Eval.inv_assign
         intro s1 hs1
         exact hs1)
      | with_reducible apply Eval.inv_bind
      | intro _

/-- The result of an evaluation does not depend on the foot poses or on `sqrt`. -/
theorem computeControlFeedback_feet {M : Type} (sqrt sqrt' : α → α) (sig sig' : Signals α M)
    (inTime : Int) (s : Stabilizer α)
    (hd : sig'.deltaComSIN_ inTime = sig.deltaComSIN_ inTime)
    (hc : sig'.comdotSIN_ inTime = sig.comdotSIN_ inTime)
    (hx : sig'.stateFlexXSIN_ inTime = sig.stateFlexXSIN_ inTime)
    (hy : sig'.stateFlexYSIN_ inTime = sig.stateFlexYSIN_ inTime) :
    computeControlFeedback sqrt' sig' inTime s = computeControlFeedback sqrt sig inTime s := by
  unfold computeControlFeedback
  dsimp only
  rw [hd, hc, hx, hy]
  rcases h0 : (sig.deltaComSIN_ inTime)[0]? with _ | x <;>
  rcases h1 : (sig.deltaComSIN_ inTime)[1]? with _ | y <;>
  rcases h2 : (sig.deltaComSIN_ inTime)[2]? with _ | z <;>
  simp only [Eval.bind_run, Eval.assign_run, Eval.check_run]
  rw [controlSwitch_feet sqrt' sqrt x y _ _ (sig.leftFootPositionSIN_ inTime)
    (sig.rightFootPositionSIN_ inTime) _ _ _ _ rfl (by cases s.on_ <;> simp)]

/-- An evaluation that reads the three entries of `deltaCom` leaves the phase
index in entry 10 of the debug vector, whether it then ends or stops. -/
theorem computeControlFeedback_debug10 {M : Type} (sqrt : α → α) (sig : Signals α M)
    (inTime : Int) (s : Stabilizer α) (x y z : α)
    (hd : sig.deltaComSIN_ inTime = [x, y, z]) :
    (computeControlFeedback sqrt sig inTime s).2.debug_ 10
      = (((if s.on_ then 1 else 0 : Nat) : Nat) : α) := by
  unfold computeControlFeedback
  dsimp only
  rw [hd]
  simp only [Eval.bind_run, Eval.assign_run, Eval.check_run, List.getElem?_cons_succ,
    List.getElem?_cons_zero]
  have hinv := controlSwitch_debug10 (((if s.on_ then 1 else 0 : Nat) : Nat) : α) sqrt x y
    (sig.leftFootPositionSIN_ inTime) (sig.rightFootPositionSIN_ inTime)
    (sig.stateFlexXSIN_ inTime) (sig.stateFlexYSIN_ inTime)
    { s with
      nbSupport_ := if s.on_ then 1 else 0
      debug_ := Function.update (fun _ => 0) 10 (((if s.on_ then 1 else 0 : Nat) : Nat) : α) }
    (by simp)
  revert hinv
  rcases controlSwitch sqrt x y (sig.leftFootPositionSIN_ inTime)
    (sig.rightFootPositionSIN_ inTime) (sig.stateFlexXSIN_ inTime)
    (sig.stateFlexYSIN_ inTime) _ with ⟨o, s2⟩
  intro hinv
  cases o with
  | none => exact hinv
  | some u =>
    rcases h0 : (sig.comdotSIN_ inTime)[0]? with _ | c0 <;>
    rcases h1 : (sig.comdotSIN_ inTime)[1]? with _ | c1 <;>
    rcases h2 : (sig.comdotSIN_ inTime)[2]? with _ | c2 <;>
    simp only [Eval.bind_run, Eval.assign_run, Eval.check_run, Eval.members_run,
      Eval.pure_run] <;>
    exact hinv

/-- C21: for every controller state and every input, the phase index after an
evaluation is 0 when the latch is off and 1 when it is on, never 2, also after
any sequence of operations. The evaluation is the same whatever the phase index
held before (2 included) and whatever the foot poses and `sqrt`, which only the
double-support case reads; and an evaluation that reads `deltaCom` leaves 0 or 1
in entry 10 of the debug vector. -/
theorem phase_index_never_double {M : Type} (sqrt : α → α) (sig : Signals α M) (inTime : Int)
    (s : Stabilizer α) :
    (computeControlFeedback sqrt sig inTime s).2.nbSupport_ = (if s.on_ then 1 else 0) ∧
    (computeControlFeedback sqrt sig inTime s).2.nbSupport_ ≠ 2 ∧
    (∀ ops : List (Op α M),
      ((Op.computeControlFeedback sig inTime).run sqrt (runOps sqrt ops s)).nbSupport_ ≠ 2) ∧
    (∀ n : Nat, computeControlFeedback sqrt sig inTime { s with nbSupport_ := n }
      = computeControlFeedback sqrt sig inTime s) ∧
    (∀ (sqrt' : α → α) (L' R' : Int → MatrixHomogeneous α),
      computeControlFeedback sqrt'
        { sig with leftFootPositionSIN_ := L', rightFootPositionSIN_ := R' } inTime s
      = computeControlFeedback sqrt sig inTime s) ∧
    (∀ x y z : α, sig.deltaComSIN_ inTime = [x, y, z] →
      (computeControlFeedback sqrt sig inTime s).2.debug_ 10 = 0 ∨
      (computeControlFeedback sqrt sig inTime s).2.debug_ 10 = 1) := by
  have hnb : ∀ s1 : Stabilizer α,
      (computeControlFeedback sqrt sig inTime s1).2.nbSupport_ ≠ 2 := by
    intro s1
    rw [computeControlFeedback_nbSupport]
    cases s1.on_ <;> simp
  refine ⟨computeControlFeedback_nbSupport sqrt sig inTime s, hnb s, fun ops => hnb _,
    fun n => ?_, fun sqrt' L' R' => ?_, fun x y z hd => ?_⟩
  · unfold computeControlFeedback
    rfl
  · exact computeControlFeedback_feet sqrt sqrt' sig _ inTime s rfl rfl rfl rfl
  · rw [computeControlFeedback_debug10 sqrt sig inTime s x y z hd]
    cases s.on_ <;> simp

/-- Scaling by a factor strictly between 0 and 1 shrinks a non-zero real,
keeps its sign, and fixes only zero. -/
theorem scale_contracts (c v : ℝ) (h0 : 0 < c) (h1 : c < 1) :
    (v ≠ 0 → |c * v| < |v|) ∧ (0 < v → 0 < c * v) ∧ (v < 0 → c * v < 0) ∧
    (c * v = v ↔ v = 0) := by
  refine ⟨fun hv => ?_, fun hv => mul_pos h0 hv, fun hv => mul_neg_of_pos_of_neg h0 hv, ?_⟩
  · rw [abs_mul, abs_of_pos h0]
    have hpos : 0 < |v| := abs_pos.mpr hv
    nlinarith
  · constructor
    · intro h
      have h2 : (c - 1) * v = 0 := by linear_combination h
      rcases mul_eq_zero.mp h2 with h3 | h3
      · exact absurd h3 (by linarith)
      · exact h3
    · intro h
      rw [h, mul_zero]

/-- C22: with the constructor's single-support gains and period, in single
support with zero COM error and zero flexibility inputs, one cycle maps the
integrator to `dx' = (1 - 0.005*54.413552941176476)*dx` and the same for `dy`;
the factor lies strictly between 0 and 1, so `|dx'| < |dx|` for `dx ≠ 0`, `dx'`
keeps the sign of `dx`, and `dx' = dx` only when `dx = 0`; likewise for `dy`. -/
theorem computeControlFeedback_default_contraction {M : Type} (sqrt : ℝ → ℝ)
    (sig : Signals ℝ M) (inTime : Int) (s : Stabilizer ℝ) (c0 c1 c2 : ℝ)
    (hon : s.on_ = true)
    (hg : s.gain1_ = (new 0 (fun _ => 0) : Stabilizer ℝ).gain1_)
    (ht : s.timePeriod_ = (new 0 (fun _ => 0) : Stabilizer ℝ).timePeriod_)
    (hd : sig.deltaComSIN_ inTime = [0, 0, 0]) (hc : sig.comdotSIN_ inTime = [c0, c1, c2])
    (hx : sig.stateFlexXSIN_ inTime = [0, 0, 0, 0])
    (hy : sig.stateFlexYSIN_ inTime = [0, 0, 0, 0]) :
    (computeControlFeedback sqrt sig inTime s).2.dx_
      = (1 - 0.005 * 54.413552941176476) * s.dx_ ∧
    (computeControlFeedback sqrt sig inTime s).2.dy_
      = (1 - 0.005 * 54.413552941176476) * s.dy_ ∧
    (0 : ℝ) < 1 - 0.005 * 54.413552941176476 ∧
    (1 - 0.005 * 54.413552941176476 : ℝ) < 1 ∧
    (s.dx_ ≠ 0 → |(computeControlFeedback sqrt sig inTime s).2.dx_| < |s.dx_|) ∧
    (0 < s.dx_ → 0 < (computeControlFeedback sqrt sig inTime s).2.dx_) ∧
    (s.dx_ < 0 → (computeControlFeedback sqrt sig inTime s).2.dx_ < 0) ∧
    ((computeControlFeedback sqrt sig inTime s).2.dx_ = s.dx_ ↔ s.dx_ = 0) ∧
    (s.dy_ ≠ 0 → |(computeControlFeedback sqrt sig inTime s).2.dy_| < |s.dy_|) ∧
    (0 < s.dy_ → 0 < (computeControlFeedback sqrt sig inTime s).2.dy_) ∧
    (s.dy_ < 0 → (computeControlFeedback sqrt sig inTime s).2.dy_ < 0) ∧
    ((computeControlFeedback sqrt sig inTime s).2.dy_ = s.dy_ ↔ s.dy_ = 0) := by
  have h0 : (0 : ℝ) < 1 - 0.005 * 54.413552941176476 := by norm_num
  have h1 : (1 - 0.005 * 54.413552941176476 : ℝ) < 1 := by norm_num
  have ht1 : s.timePeriod_ = 0.005 := ht
  have hdx : (computeControlFeedback sqrt sig inTime s).2.dx_
      = (1 - 0.005 * 54.413552941176476) * s.dx_ := by
    rw [computeControlFeedback_single_run sqrt sig inTime s
      177.57303317647063 (-29.735033684033631) 54.413552941176476 (-27.530842352941178)
      0 0 0 c0 c1 c2 0 0 0 0 0 0 0 0 _ _ hon hg hd hc hx hy rfl rfl]
    show s.dx_ + s.timePeriod_ * _ = _
    rw [ht1]
    ring
  have hdy : (computeControlFeedback sqrt sig inTime s).2.dy_
      = (1 - 0.005 * 54.413552941176476) * s.dy_ := by
    rw [computeControlFeedback_single_run sqrt sig inTime s
      177.57303317647063 (-29.735033684033631) 54.413552941176476 (-27.530842352941178)
      0 0 0 c0 c1 c2 0 0 0 0 0 0 0 0 _ _ hon hg hd hc hx hy rfl rfl]
    show s.dy_ + s.timePeriod_ * _ = _
    rw [ht1]
    ring
  obtain ⟨hx1, hx2, hx3, hx4⟩ := scale_contracts _ s.dx_ h0 h1
  obtain ⟨hy1, hy2, hy3, hy4⟩ := scale_contracts _ s.dy_ h0 h1
  rw [hdx, hdy]
  exact ⟨rfl, rfl, h0, h1, hx1, hx2, hx3, hx4, hy1, hy2, hy3, hy4⟩

/-- C22 at a concrete input: a started controller as the constructor leaves it,
with integrator state `(1, -2)`. -/
theorem computeControlFeedback_default_contraction_witness :
    (startedWith (new 0 (fun _ => 0) : Stabilizer ℝ).gain1_ 1 (-2)).on_ = true ∧
    (computeControlFeedback Real.sqrt (constantSignals [0, 0, 0] [0, 0, 0, 0] [0, 0, 0, 0]) 0
      (startedWith (new 0 (fun _ => 0) : Stabilizer ℝ).gain1_ 1 (-2))).2.dx_
      = (1 - 0.005 * 54.413552941176476)
        * (startedWith (new 0 (fun _ => 0) : Stabilizer ℝ).gain1_ 1 (-2)).dx_ :=
  ⟨rfl, (computeControlFeedback_default_contraction Real.sqrt
    (constantSignals [0, 0, 0] [0, 0, 0, 0] [0, 0, 0, 0]) 0
    (startedWith (new 0 (fun _ => 0) : Stabilizer ℝ).gain1_ 1 (-2)) 0 0 0
    rfl rfl rfl rfl rfl rfl rfl).1⟩

end Stabilizer

end sot.dynamic
